import Mathlib

/-!
Verification of the Figma output/input adapter core of the `figma-to` repository.

The development shallowly embeds the TypeScript sources
`src/adapters/output/figma/{safety,transformer,styles-transformer,report}.ts`
and the read-path parser `src/adapters/figma/adapter.ts`.

Conventions of the embedding:
* JS numbers are modelled as `ℚ` (all arithmetic the code performs on them is
  exact), except for the gradient-handle geometry which uses `ℝ` because the
  source calls `Math.cos` / `Math.sin`.
* JS objects used as string-keyed dictionaries (`Map`, token groups,
  `valuesByMode`, `collectionMapping`) are modelled as association lists in
  insertion order; `Map.set` replaces an existing binding in place.
* The leaf-vs-group discrimination that the source performs by probing for a
  `$type` key is modelled by construction as a tagged union (`Node`), the
  shape the data actually has.
* Mutable state (the module-global id counter, the report builder, the
  request-body arrays) is passed explicitly; JS `array.push` appends on the
  right.
* Thrown exceptions are modelled with `Except`.
* Field names drop the `$` sigil of the DTCG schema (`$type` ↦ `type'`,
  `$value` ↦ `value'`, `$ref` ↦ `ref'`); a few identifiers are renamed where
  the source name is not usable verbatim, noted at each definition.
-/

namespace FigmaTo

/-- Modelled from the spec: the closed set of normalized token kinds
(`TokenType` in `src/schema/tokens.ts`, which is referenced by the adapters
but not part of the provided sources).  The eight variable-representable
kinds and the eight composite kinds are exactly the ones enumerated by
`TOKEN_TYPE_TO_FIGMA` and `SKIP_TYPES` in `transformer.ts`. -/
inductive TokenType where
  | color
  | dimension
  | number
  | string
  | boolean
  | fontFamily
  | fontWeight
  | duration
  | typography
  | shadow
  | border
  | gradient
  | cubicBezier
  | transition
  | animation
  | keyframes
deriving DecidableEq, Repr

/-- Modelled from the spec: RGBA record with components in `[0,1]`, the value
shape of a Figma `COLOR` variable (upstream contract, spec section 6). -/
structure RGBA where
  r : ℚ
  g : ℚ
  b : ℚ
  a : ℚ
deriving DecidableEq, Repr

/-- Modelled from the spec: the normalized color value (`ColorValue` in
`src/schema/tokens.ts`); structurally identical to `RGBA`. -/
structure ColorValue where
  r : ℚ
  g : ℚ
  b : ℚ
  a : ℚ
deriving DecidableEq, Repr

/-- Modelled from the spec: a dimension value `{value, unit}`. -/
structure DimensionValue where
  value : ℚ
  unit : String
deriving DecidableEq, Repr

/-- Modelled from the spec: a font weight is either numeric or a keyword. -/
inductive FontWeightValue where
  | num (n : ℚ)
  | keyword (s : String)
deriving DecidableEq, Repr

/-- Modelled from the spec: CSS `text-transform` enum used by typography
tokens. -/
inductive TextTransform where
  | none
  | uppercase
  | lowercase
  | capitalize
deriving DecidableEq, Repr

/-- Modelled from the spec: a typography token line height is either a bare
multiplier (a JS `number`) or a dimension record. -/
inductive LineHeightValue where
  | multiplier (n : ℚ)
  | dim (d : DimensionValue)
deriving DecidableEq, Repr

/-- Modelled from the spec: the composite typography value consumed by
`typographyToTextStyle` in `styles-transformer.ts`. -/
structure TypographyValue where
  fontFamily : List String
  fontSize : DimensionValue
  fontWeight : FontWeightValue
  lineHeight : Option LineHeightValue
  letterSpacing : Option DimensionValue
  textTransform : Option TextTransform
deriving DecidableEq, Repr

/-- Modelled from the spec: a single shadow value consumed by
`shadowToFigmaEffect`. -/
structure ShadowValue where
  inset : Bool
  color : ColorValue
  offsetX : DimensionValue
  offsetY : DimensionValue
  blur : DimensionValue
  spread : Option DimensionValue
deriving DecidableEq, Repr

/-- Modelled from the spec: gradient kind. -/
inductive GradientType where
  | linear
  | radial
  | conic
deriving DecidableEq, Repr

/-- Modelled from the spec: one gradient stop. -/
structure GradientStop where
  color : ColorValue
  position : ℚ
deriving DecidableEq, Repr

/-- Modelled from the spec: the composite gradient value consumed by
`gradientToFigmaPaint`. -/
structure GradientValue where
  type' : GradientType
  angle : Option ℚ
  stops : List GradientStop
deriving DecidableEq, Repr

/-- Modelled from the spec: a token's `$value` union.  A `reference` holds the
raw `$ref` string (`TokenReference`), never eagerly resolved.  `shadowOne` /
`shadowMany` mirror `ShadowValue | ShadowValue[]`.  `compositeOther` stands
for the composite value shapes (border, cubicBezier, transition, animation,
keyframes) whose internal structure no adapter in scope inspects. -/
inductive TokenValue where
  | reference (ref' : String)
  | color (c : ColorValue)
  | dimension (d : DimensionValue)
  | number (n : ℚ)
  | string (s : String)
  | boolean (b : Bool)
  | fontFamily (families : List String)
  | fontWeight (w : FontWeightValue)
  | duration (d : DimensionValue)
  | typography (t : TypographyValue)
  | shadowOne (s : ShadowValue)
  | shadowMany (ss : List ShadowValue)
  | gradient (g : GradientValue)
  | compositeOther
deriving DecidableEq, Repr

/-- Modelled from the spec: a normalized token.  `type'` is `$type`, `value'`
is `$value`, `description` is `$description`.  Of the vendor extension bag the
adapters only ever read `$extensions['com.figma'].hiddenFromPublishing`,
modelled as the boolean `hidden` (`false` when the bag or flag is absent,
matching the optional-chaining truthiness test in `transformer.ts`). -/
structure Token where
  type' : TokenType
  value' : TokenValue
  description : Option String
  hidden : Bool
deriving DecidableEq, Repr

mutual
/-- Modelled from the spec: an entry of a token group is a metadata string, a
leaf token, or a sub-group (spec section 3; the source discriminates by
probing for a `$type` key, here the union is tagged by construction). -/
inductive Node where
  | str (s : String) : Node
  | leaf (t : Token) : Node
  | group (es : Entries) : Node
deriving DecidableEq, Repr

/-- Modelled from the spec: the ordered key-value entries of a token group
(`Object.entries` order). -/
inductive Entries where
  | nil : Entries
  | cons (key : String) (v : Node) (rest : Entries) : Entries
deriving DecidableEq, Repr
end

/-- Modelled from the spec: one token collection
(`TokenCollection` in `src/schema/tokens.ts`): mode names in declared order, a
default mode, and one token tree per mode name. -/
structure TokenCollection where
  name : String
  modes : List String
  defaultMode : String
  tokens : List (String × Entries)
deriving DecidableEq, Repr

/-- Modelled from the spec: `ThemeFile.meta`; only the origin-file id is read
by the adapters in scope. -/
structure ThemeMeta where
  figmaFileKey : Option String
deriving DecidableEq, Repr

/-- Modelled from the spec: a parsed theme file. -/
structure ThemeFile where
  name : String
  collections : List TokenCollection
  meta : Option ThemeMeta
deriving DecidableEq, Repr

/-- First-match lookup in an association list (JS object / `Map.get`). -/
def lookupAssoc {α : Type} (l : List (String × α)) (k : String) : Option α :=
  match l with
  | [] => Option.none
  | (k', v) :: rest => if k' = k then Option.some v else lookupAssoc rest k

/-- `Map.set` on an association list: replace the first binding of the key in
place, else append. -/
def mapSet (l : List (String × String)) (k v : String) : List (String × String) :=
  match l with
  | [] => [(k, v)]
  | (k', v') :: rest => if k' = k then (k, v) :: rest else (k', v') :: mapSet rest k v

-- =============================================================================
-- Adapter options (types.ts `FigmaOutputAdapterOptions`)
-- =============================================================================

/-- Options for the Figma output adapter (`types.ts`).  `idPfx` is the source
field `idPrefix` (renamed).  `allowSourceOverwrite` is modelled as a plain
`Bool` defaulting to `false`, matching the source's `?? false`; `skipHidden`
likewise (an absent field is falsy).  The operation-mode field is declared in
the source but never read by the transformer and is omitted. -/
structure FigmaOutputAdapterOptions where
  targetFileKey : Option String := Option.none
  allowSourceOverwrite : Bool := false
  collectionMapping : List (String × String) := []
  skipHidden : Bool := false
  idPfx : Option String := Option.none
deriving DecidableEq, Repr

-- =============================================================================
-- Safety check (safety.ts)
-- =============================================================================

/-- `SourceCheckResult` from `types.ts`. -/
structure SourceCheckResult where
  sourceFileKey : Option String
  targetFileKey : Option String
  isSameFile : Bool
  overwriteAllowed : Bool
deriving DecidableEq, Repr

/-- `SourceOverwriteError` from `types.ts`: the thrown error carries both file
keys. -/
structure SourceOverwriteError where
  sourceFileKey : String
  targetFileKey : String
deriving DecidableEq, Repr

/-- JS truthiness of a `string | undefined`: `undefined` and the empty string
are falsy. -/
def truthyKey : Option String → Bool
  | Option.none => false
  | Option.some s => s ≠ ""

/-- `checkSourceSafety` from `safety.ts`.  Returns the check result, or the
distinguished overwrite error when source and target keys are both truthy,
equal, and overwriting was not explicitly allowed.  The source's early return
`if (!sourceFileKey || !targetFileKey)` fires on `undefined` and on the empty
string alike (JS falsiness). -/
def checkSourceSafety (theme : ThemeFile) (options : FigmaOutputAdapterOptions) :
    Except SourceOverwriteError SourceCheckResult :=
  let sourceFileKey := theme.meta.bind (·.figmaFileKey)
  let targetFileKey := options.targetFileKey
  let allowOverwrite := options.allowSourceOverwrite
  let result : SourceCheckResult :=
    { sourceFileKey := sourceFileKey
      targetFileKey := targetFileKey
      isSameFile := false
      overwriteAllowed := allowOverwrite }
  if truthyKey sourceFileKey = false ∨ truthyKey targetFileKey = false then
    Except.ok result
  else
    let isSame : Bool := sourceFileKey = targetFileKey
    if isSame ∧ allowOverwrite = false then
      Except.error
        { sourceFileKey := sourceFileKey.getD ""
          targetFileKey := targetFileKey.getD "" }
    else
      Except.ok { result with isSameFile := isSame }

-- =============================================================================
-- Report builder (report.ts)
-- =============================================================================

/-- The closed warning-code set from `types.ts`. -/
inductive WarningCode where
  | UNSUPPORTED_TYPE
  | VALUE_TRUNCATED
  | UNIT_DISCARDED
  | COMPOSITE_SKIPPED
  | ALIAS_UNRESOLVED
  | NAME_COLLISION
  | SOURCE_MATCH
  | PLUGIN_NOT_CONNECTED
deriving DecidableEq, Repr

/-- `TransformationStats` from `types.ts`: the six counters. -/
structure TransformationStats where
  collectionsCreated : Nat
  modesCreated : Nat
  variablesCreated : Nat
  valuesSet : Nat
  skipped : Nat
  warnings : Nat
deriving DecidableEq, Repr

/-- `SkippedToken` from `types.ts`. -/
structure SkippedToken where
  path : String
  reason : String
  originalType : TokenType
  suggestion : Option String
deriving DecidableEq, Repr

/-- `TransformationWarning` from `types.ts`. -/
structure TransformationWarning where
  code : WarningCode
  message : String
  path : Option String
deriving DecidableEq, Repr

/-- The state of a `TransformationReportBuilder` (`report.ts`).  Note the
builder defines exactly the mutators embedded below; in particular it has no
`addStyle` method (see `addStyleCall`). -/
structure Report where
  stats : TransformationStats
  skipped : List SkippedToken
  warnings : List TransformationWarning
  sourceCheck : SourceCheckResult
deriving DecidableEq, Repr

/-- The freshly constructed report builder (field initializers of
`TransformationReportBuilder`). -/
def Report.init : Report :=
  { stats :=
      { collectionsCreated := 0, modesCreated := 0, variablesCreated := 0
        valuesSet := 0, skipped := 0, warnings := 0 }
    skipped := []
    warnings := []
    sourceCheck :=
      { sourceFileKey := Option.none, targetFileKey := Option.none
        isSameFile := false, overwriteAllowed := false } }

/-- `addCollection` from `report.ts`. -/
def Report.addCollection (r : Report) : Report :=
  { r with stats := { r.stats with collectionsCreated := r.stats.collectionsCreated + 1 } }

/-- `addMode` from `report.ts`. -/
def Report.addMode (r : Report) : Report :=
  { r with stats := { r.stats with modesCreated := r.stats.modesCreated + 1 } }

/-- `addVariable` from `report.ts`. -/
def Report.addVariable (r : Report) : Report :=
  { r with stats := { r.stats with variablesCreated := r.stats.variablesCreated + 1 } }

/-- `addValue` from `report.ts`. -/
def Report.addValue (r : Report) : Report :=
  { r with stats := { r.stats with valuesSet := r.stats.valuesSet + 1 } }

/-- `addSkipped` from `report.ts`. -/
def Report.addSkipped (r : Report) (path reason : String) (originalType : TokenType)
    (suggestion : Option String) : Report :=
  { r with
    stats := { r.stats with skipped := r.stats.skipped + 1 }
    skipped := r.skipped ++ [{ path := path, reason := reason,
                               originalType := originalType, suggestion := suggestion }] }

/-- `addWarning` from `report.ts`. -/
def Report.addWarning (r : Report) (code : WarningCode) (message : String)
    (path : Option String) : Report :=
  { r with
    stats := { r.stats with warnings := r.stats.warnings + 1 }
    warnings := r.warnings ++ [{ code := code, message := message, path := path }] }

/-- `setSourceCheck` from `report.ts`.  Here sameness only requires both keys
to be defined (`!== undefined`), with no empty-string test. -/
def Report.setSourceCheck (r : Report) (sourceFileKey targetFileKey : Option String)
    (overwriteAllowed : Bool) : Report :=
  { r with sourceCheck :=
      { sourceFileKey := sourceFileKey
        targetFileKey := targetFileKey
        isSameFile := sourceFileKey.isSome ∧ targetFileKey.isSome ∧
          sourceFileKey = targetFileKey
        overwriteAllowed := overwriteAllowed } }

-- =============================================================================
-- Write-path transformer (transformer.ts)
-- =============================================================================

/-- Figma resolved variable data types (`@figma/rest-api-spec`). -/
inductive VariableResolvedDataType where
  | COLOR
  | FLOAT
  | STRING
  | BOOLEAN
deriving DecidableEq, Repr

/-- `TOKEN_TYPE_TO_FIGMA` from `transformer.ts`: the partial map from token
types to Figma resolved types (`undefined` for unmapped kinds). -/
def TOKEN_TYPE_TO_FIGMA : TokenType → Option VariableResolvedDataType
  | TokenType.color => Option.some VariableResolvedDataType.COLOR
  | TokenType.dimension => Option.some VariableResolvedDataType.FLOAT
  | TokenType.number => Option.some VariableResolvedDataType.FLOAT
  | TokenType.string => Option.some VariableResolvedDataType.STRING
  | TokenType.boolean => Option.some VariableResolvedDataType.BOOLEAN
  | TokenType.fontFamily => Option.some VariableResolvedDataType.STRING
  | TokenType.fontWeight => Option.some VariableResolvedDataType.FLOAT
  | TokenType.duration => Option.some VariableResolvedDataType.FLOAT
  | _ => Option.none

/-- `SKIP_TYPES` from `transformer.ts`: token types not representable as Figma
variables. -/
def SKIP_TYPES : List TokenType :=
  [TokenType.typography, TokenType.shadow, TokenType.border, TokenType.gradient,
   TokenType.cubicBezier, TokenType.transition, TokenType.animation, TokenType.keyframes]

/-- `generateTempId` from `transformer.ts`: `` `${prefix}_${++idCounter}` ``.
The module-global counter is passed and returned explicitly. -/
def generateTempId (pfx : String) (counter : Nat) : String × Nat :=
  (pfx ++ "_" ++ toString (counter + 1), counter + 1)

/-- `colorToFigmaRGBA` from `transformer.ts` (also duplicated verbatim in
`styles-transformer.ts`): field-by-field copy into the host RGBA record. -/
def colorToFigmaRGBA (color : ColorValue) : RGBA :=
  { r := color.r, g := color.g, b := color.b, a := color.a }

/-- `dimensionToNumber` from `transformer.ts`: strip the unit, warning when it
was not `"px"`.  (The warning message in the source quotes the unit with
apostrophes; the quotes are omitted here.) -/
def dimensionToNumber (dim : DimensionValue) (report : Report) (path : String) :
    ℚ × Report :=
  if dim.unit ≠ "px" then
    (dim.value,
     report.addWarning WarningCode.UNIT_DISCARDED
       ("Unit " ++ dim.unit ++ " discarded, stored as raw number") (Option.some path))
  else
    (dim.value, report)

/-- The keyword table of `fontWeightToNumber` in `transformer.ts` (identical
to the one in `normalizeFontWeight` of `styles-transformer.ts`). -/
def fontWeightKeywords : List (String × ℚ) :=
  [("thin", 100), ("hairline", 100), ("extralight", 200), ("ultralight", 200),
   ("light", 300), ("normal", 400), ("regular", 400), ("medium", 500),
   ("semibold", 600), ("demibold", 600), ("bold", 700), ("extrabold", 800),
   ("ultrabold", 800), ("black", 900), ("heavy", 900)]

/-- `fontWeightToNumber` from `transformer.ts`: numbers pass through, keywords
map through the fixed table, unrecognized keywords become 400. -/
def fontWeightToNumber : FontWeightValue → ℚ
  | FontWeightValue.num n => n
  | FontWeightValue.keyword s => (lookupAssoc fontWeightKeywords s.toLower).getD 400

/-- A value of a Figma variable mode binding.  `undef` stands for the JS value
that results when the source's unchecked cast meets a `$value` whose shape
disagrees with `$type`; no claim in scope exercises those inputs. -/
inductive FigmaVariableValue where
  | float (n : ℚ)
  | str (s : String)
  | boolean (b : Bool)
  | rgba (c : RGBA)
  | undef
deriving DecidableEq, Repr

/-- `tokenValueToFigma` from `transformer.ts`: convert a token's value for a
mode binding; `Option.none` models the `null` returns (references and
unconvertible composite kinds).  References are recorded as skipped. -/
def tokenValueToFigma (token : Token) (report : Report) (path : String) :
    Option FigmaVariableValue × Report :=
  match token.value' with
  | TokenValue.reference _ =>
      (Option.none,
       report.addSkipped path "Token references require special handling" token.type'
         (Option.some "References will be supported in a future update"))
  | v =>
    match token.type' with
    | TokenType.color =>
        (Option.some (match v with
          | TokenValue.color c => FigmaVariableValue.rgba (colorToFigmaRGBA c)
          | _ => FigmaVariableValue.undef), report)
    | TokenType.dimension =>
        (match v with
         | TokenValue.dimension d =>
             let conv := dimensionToNumber d report path
             (Option.some (FigmaVariableValue.float conv.1), conv.2)
         | _ => (Option.some FigmaVariableValue.undef, report))
    | TokenType.number =>
        (Option.some (match v with
          | TokenValue.number n => FigmaVariableValue.float n
          | _ => FigmaVariableValue.undef), report)
    | TokenType.string =>
        (Option.some (match v with
          | TokenValue.string s => FigmaVariableValue.str s
          | _ => FigmaVariableValue.undef), report)
    | TokenType.boolean =>
        (Option.some (match v with
          | TokenValue.boolean b => FigmaVariableValue.boolean b
          | _ => FigmaVariableValue.undef), report)
    | TokenType.fontFamily =>
        (match v with
         | TokenValue.fontFamily families =>
             let report' :=
               if families.length > 1 then
                 report.addWarning WarningCode.VALUE_TRUNCATED
                   ("Font stack truncated to first family: " ++ families.headD "")
                   (Option.some path)
               else report
             (Option.some (FigmaVariableValue.str (families.headD "")), report')
         | _ => (Option.some FigmaVariableValue.undef, report))
    | TokenType.fontWeight =>
        (Option.some (match v with
          | TokenValue.fontWeight w => FigmaVariableValue.float (fontWeightToNumber w)
          | _ => FigmaVariableValue.undef), report)
    | TokenType.duration =>
        (Option.some (match v with
          | TokenValue.duration d =>
              FigmaVariableValue.float (if d.unit = "s" then d.value * 1000 else d.value)
          | _ => FigmaVariableValue.undef), report)
    | _ => (Option.none, report)

/-- The `key.startsWith('$')` metadata test of the source, implemented over
the character list (the library's `String.startsWith` does not reduce inside
the kernel). -/
def startsWithDollar (s : String) : Bool :=
  match s.data with
  | [] => false
  | c :: _ => c = '$'

mutual
/-- One step of `flattenTokens` from `transformer.ts` for a single entry:
metadata strings and `$`-prefixed keys are skipped, leaves are emitted with
their path, groups are recursed into. -/
def flattenEntry (basePath : List String) (key : String) (v : Node) :
    List (List String × Token) :=
  match v with
  | Node.str _ => []
  | Node.leaf t => if startsWithDollar key then [] else [(basePath ++ [key], t)]
  | Node.group es => if startsWithDollar key then [] else flattenEntries (basePath ++ [key]) es

/-- `flattenTokens` from `transformer.ts`, over the entries of a group. -/
def flattenEntries (basePath : List String) : Entries → List (List String × Token)
  | Entries.nil => []
  | Entries.cons key v rest => flattenEntry basePath key v ++ flattenEntries basePath rest
end

/-- `flattenTokens` from `transformer.ts` with its default empty base path. -/
def flattenTokens (group : Entries) : List (List String × Token) :=
  flattenEntries [] group

/-- Key lookup among group entries (JS property access, unique keys in a real
object; first match here). -/
def lookupEntries : Entries → String → Option Node
  | Entries.nil, _ => Option.none
  | Entries.cons k v rest, s => if k = s then Option.some v else lookupEntries rest s

/-- The inner per-mode navigation loop of `transformToFigmaVariables`
(transformer.ts): walk the path segments through a mode's tree; the result is
a token only when the walk ends on a leaf.  Paths produced by `flattenTokens`
never contain `$`-prefixed segments, so a segment lookup never enters a leaf
or metadata string. -/
def navigate : Node → List String → Option Node
  | n, [] => Option.some n
  | Node.group es, s :: rest =>
      match lookupEntries es s with
      | Option.some v => navigate v rest
      | Option.none => Option.none
  | _, _ :: _ => Option.none

/-- Resolution of a flattened path inside one mode's tree, the `modeToken`
computation in `transformToFigmaVariables`. -/
def resolveModeToken (es : Entries) (path : List String) : Option Token :=
  match navigate (Node.group es) path with
  | Option.some (Node.leaf t) => Option.some t
  | _ => Option.none

/-- DTCG type-tag names, used in the report messages the transformer builds
(`${token.$type}` interpolation). -/
def tokenTypeName : TokenType → String
  | TokenType.color => "color"
  | TokenType.dimension => "dimension"
  | TokenType.number => "number"
  | TokenType.string => "string"
  | TokenType.boolean => "boolean"
  | TokenType.fontFamily => "fontFamily"
  | TokenType.fontWeight => "fontWeight"
  | TokenType.duration => "duration"
  | TokenType.typography => "typography"
  | TokenType.shadow => "shadow"
  | TokenType.border => "border"
  | TokenType.gradient => "gradient"
  | TokenType.cubicBezier => "cubicBezier"
  | TokenType.transition => "transition"
  | TokenType.animation => "animation"
  | TokenType.keyframes => "keyframes"

/-- `VariableCollectionCreate` op (`@figma/rest-api-spec`); `action` is always
the literal `"CREATE"`. -/
structure VariableCollectionCreate where
  action : String
  id : String
  name : String
  initialModeId : String
deriving DecidableEq, Repr

/-- `VariableModeCreate` op. -/
structure VariableModeCreate where
  action : String
  id : String
  name : String
  variableCollectionId : String
deriving DecidableEq, Repr

/-- `VariableCreate` op. -/
structure VariableCreate where
  action : String
  id : String
  name : String
  variableCollectionId : String
  resolvedType : VariableResolvedDataType
  description : Option String
deriving DecidableEq, Repr

/-- `VariableModeValue` op. -/
structure VariableModeValue where
  variableId : String
  modeId : String
  value : FigmaVariableValue
deriving DecidableEq, Repr

/-- `PostVariablesRequestBody`: the four ordered op lists. -/
structure PostVariablesRequestBody where
  variableCollections : List VariableCollectionCreate
  variableModes : List VariableModeCreate
  variables' : List VariableCreate
  variableModeValues : List VariableModeValue
deriving DecidableEq, Repr

/-- The mutable state threaded through `transformToFigmaVariables`: the
module-global id counter, the request body under construction and the report
builder.  (The source also fills three id-lookup `Map`s — `collectionIds`,
`modeIds`, `variableIds` — that nothing ever reads again; they are omitted.
The one map that is read, the per-collection `collectionModeIds`, is passed
explicitly below.) -/
structure TransformState where
  counter : Nat
  body : PostVariablesRequestBody
  report : Report
deriving DecidableEq, Repr

/-- The non-default-mode creation loop of `transformToFigmaVariables`:
returns the advanced counter, the extended `collectionModeIds` map and the
`VariableModeCreate` ops pushed, in declared order. -/
def buildModes (pfx collectionId defaultMode : String) :
    List String → Nat → List (String × String) →
    Nat × List (String × String) × List VariableModeCreate
  | [], ctr, modeMap => (ctr, modeMap, [])
  | m :: rest, ctr, modeMap =>
      if m = defaultMode then buildModes pfx collectionId defaultMode rest ctr modeMap
      else
        let gen := generateTempId (pfx ++ "_mode") ctr
        let res := buildModes pfx collectionId defaultMode rest gen.2 (mapSet modeMap m gen.1)
        (res.1, res.2.1,
         { action := "CREATE", id := gen.1, name := m, variableCollectionId := collectionId }
           :: res.2.2)

/-- The per-variable mode-value loop of `transformToFigmaVariables`: for each
declared mode, resolve the same path in that mode's tree and convert; silent
skips for absent trees, unresolved paths and unknown mode ids; `null`
conversions (references, composites) produce no value.  Returns the final
report and the `VariableModeValue` ops pushed, in order. -/
def processModeValues (collectionName : String) (tokens : List (String × Entries))
    (collectionModeIds : List (String × String)) (variableId : String)
    (path : List String) : List String → Report → Report × List VariableModeValue
  | [], report => (report, [])
  | modeName :: rest, report =>
      match lookupAssoc tokens modeName with
      | Option.none =>
          processModeValues collectionName tokens collectionModeIds variableId path rest report
      | Option.some modeTokens =>
        match resolveModeToken modeTokens path with
        | Option.none =>
            processModeValues collectionName tokens collectionModeIds variableId path rest report
        | Option.some modeToken =>
          match lookupAssoc collectionModeIds modeName with
          | Option.none =>
              processModeValues collectionName tokens collectionModeIds variableId path rest report
          | Option.some modeId =>
            let conv := tokenValueToFigma modeToken report
              (collectionName ++ "." ++ modeName ++ "." ++ String.intercalate "." path)
            match conv.1 with
            | Option.none =>
                processModeValues collectionName tokens collectionModeIds variableId path rest conv.2
            | Option.some figmaValue =>
                let res := processModeValues collectionName tokens collectionModeIds variableId
                  path rest (conv.2.addValue)
                (res.1, { variableId := variableId, modeId := modeId, value := figmaValue }
                          :: res.2)

/-- The per-token body of the variable-creation loop of
`transformToFigmaVariables`: skip composite kinds (with a Skipped entry),
skip unknown kinds (with a Skipped entry), silently drop hidden tokens under
`skipHidden`, else emit one variable-create and its mode values. -/
def processToken (options : FigmaOutputAdapterOptions) (collection : TokenCollection)
    (collectionId pfx : String) (collectionModeIds : List (String × String))
    (st : TransformState) (pt : List String × Token) : TransformState :=
  let path := pt.1
  let token := pt.2
  if SKIP_TYPES.contains token.type' then
    { st with report := (st.report.addSkipped (String.intercalate "." path)
        ("Token type " ++ tokenTypeName token.type' ++ " is not supported as a Figma variable")
        token.type' (Option.some "Consider using Figma Styles API for composite types")) }
  else
    match TOKEN_TYPE_TO_FIGMA token.type' with
    | Option.none =>
        { st with report := (st.report.addSkipped (String.intercalate "." path)
            ("Unknown token type: " ++ tokenTypeName token.type') token.type' Option.none) }
    | Option.some figmaType =>
      if options.skipHidden ∧ token.hidden then st
      else
        let variableName := String.intercalate "/" path
        let gen := generateTempId (pfx ++ "_var") st.counter
        let variableCreate : VariableCreate :=
          { action := "CREATE", id := gen.1, name := variableName,
            variableCollectionId := collectionId, resolvedType := figmaType,
            description := token.description }
        let st1 : TransformState :=
          { counter := gen.2
            body := { st.body with variables' := st.body.variables' ++ [variableCreate] }
            report := st.report.addVariable }
        let mv := processModeValues collection.name collection.tokens collectionModeIds gen.1
          path collection.modes st1.report
        { st1 with
          report := mv.1
          body := { st1.body with variableModeValues := st1.body.variableModeValues ++ mv.2 } }

/-- The per-collection body of the main loop of `transformToFigmaVariables`:
emit the collection-create (binding a fresh initial mode id for the default
mode), the mode-creates for the other declared modes, then process the
flattened default-mode tree. -/
def processCollection (options : FigmaOutputAdapterOptions) (pfx : String)
    (st : TransformState) (collection : TokenCollection) : TransformState :=
  let collectionName := (lookupAssoc options.collectionMapping collection.name).getD collection.name
  let genCol := generateTempId (pfx ++ "_col") st.counter
  let genMode := generateTempId (pfx ++ "_mode") genCol.2
  let collectionCreate : VariableCollectionCreate :=
    { action := "CREATE", id := genCol.1, name := collectionName, initialModeId := genMode.1 }
  let st1 : TransformState :=
    { counter := genMode.2
      body := { st.body with
                variableCollections := st.body.variableCollections ++ [collectionCreate] }
      report := st.report.addCollection }
  let bm := buildModes pfx genCol.1 collection.defaultMode collection.modes st1.counter
    [(collection.defaultMode, genMode.1)]
  let st2 : TransformState :=
    { counter := bm.1
      body := { st1.body with variableModes := st1.body.variableModes ++ bm.2.2 }
      report := bm.2.2.foldl (fun r _ => r.addMode) st1.report }
  match lookupAssoc collection.tokens collection.defaultMode with
  | Option.none => st2
  | Option.some defaultTokens =>
      (flattenTokens defaultTokens).foldl
        (processToken options collection genCol.1 pfx bm.2.1) st2

/-- The flattened default-mode tree of a collection: exactly the (path,
token) list the variable-creation loop of `transformToFigmaVariables`
iterates (empty when the default mode has no tree). -/
def defaultFlattened (c : TokenCollection) : List (List String × Token) :=
  match lookupAssoc c.tokens c.defaultMode with
  | Option.some defaultTokens => flattenTokens defaultTokens
  | Option.none => []

/-- Referential consistency of a request batch: every mode-create's and
variable-create's `variableCollectionId` is the id of a collection-create of
the same batch, and every mode-value's `variableId` is the id of a
variable-create and its `modeId` the id of a mode-create or the
`initialModeId` of a collection-create of the same batch. -/
def BodyRefsConsistent (body : PostVariablesRequestBody) : Prop :=
  (∀ mc ∈ body.variableModes,
    ∃ col ∈ body.variableCollections, mc.variableCollectionId = col.id) ∧
  (∀ v ∈ body.variables',
    ∃ col ∈ body.variableCollections, v.variableCollectionId = col.id) ∧
  (∀ mv ∈ body.variableModeValues,
    (∃ v ∈ body.variables', mv.variableId = v.id) ∧
    ((∃ mc ∈ body.variableModes, mv.modeId = mc.id) ∨
     (∃ col ∈ body.variableCollections, mv.modeId = col.initialModeId)))

/-- `TransformResult` from `transformer.ts`. -/
structure TransformResult where
  requestBody : PostVariablesRequestBody
  report : Report
deriving DecidableEq, Repr

/-- `transformToFigmaVariables` from `transformer.ts`.  The extra `Nat`
argument and result are the module-global id counter at entry and at exit;
the function begins with `resetIdCounter()`, so the entry value is never
read.  The `options.idPrefix || 'temp'` fallback also fires on the empty
string (JS falsiness). -/
def transformToFigmaVariables (theme : ThemeFile) (options : FigmaOutputAdapterOptions)
    (_idCounter : Nat) : TransformResult × Nat :=
  let pfx := match options.idPfx with
             | Option.some s => if s = "" then "temp" else s
             | Option.none => "temp"
  let report0 := Report.init.setSourceCheck (theme.meta.bind (·.figmaFileKey))
    options.targetFileKey options.allowSourceOverwrite
  let st0 : TransformState :=
    { counter := 0
      body := { variableCollections := [], variableModes := [], variables' := [],
                variableModeValues := [] }
      report := report0 }
  let stf := theme.collections.foldl (processCollection options pfx) st0
  ({ requestBody := stf.body, report := stf.report }, stf.counter)

-- =============================================================================
-- Read-path parser (src/adapters/figma/adapter.ts)
-- =============================================================================

/-- A value from a Figma variable's `valuesByMode` (upstream contract):
boolean, number, string, RGBA, or an alias to another variable's id. -/
inductive FigmaModeValue where
  | boolean (b : Bool)
  | number (n : ℚ)
  | string (s : String)
  | rgba (c : RGBA)
  | alias (id : String)
deriving DecidableEq, Repr

/-- A Figma `LocalVariable` (the fields the parser reads; `codeSyntax` only
populates the vendor-extension bag, which the embedding reduces to the
`hiddenFromPublishing` flag, and is omitted). -/
structure LocalVariable where
  id : String
  name : String
  resolvedType : VariableResolvedDataType
  scopes : List String
  valuesByMode : List (String × FigmaModeValue)
  hiddenFromPublishing : Bool
  description : String
deriving DecidableEq, Repr

/-- `convertFigmaColor` from the read-path parser: field-by-field copy. -/
def convertFigmaColor (color : RGBA) : ColorValue :=
  { r := color.r, g := color.g, b := color.b, a := color.a }

/-- The `dimensionScopes` list inside `convertFigmaNumber`.  Note it is a
strict superset of the scope list tested by `detectTokenType`: it additionally
contains `STROKE_FLOAT`, `PARAGRAPH_SPACING` and `PARAGRAPH_INDENT`. -/
def dimensionScopes : List String :=
  ["CORNER_RADIUS", "WIDTH_HEIGHT", "GAP", "STROKE_FLOAT", "FONT_SIZE",
   "LINE_HEIGHT", "LETTER_SPACING", "PARAGRAPH_SPACING", "PARAGRAPH_INDENT"]

/-- `convertFigmaNumber` from the read-path parser: a float becomes a px
dimension record when any scope is in `dimensionScopes`, else stays a bare
number. -/
def convertFigmaNumber (value : ℚ) (scopes : List String) : TokenValue :=
  if scopes.any (fun scope => dimensionScopes.contains scope) then
    TokenValue.dimension { value := value, unit := "px" }
  else
    TokenValue.number value

/-- `detectTokenType` from the read-path parser.  The source's `default`
branch (unrecognized `resolvedType` ↦ `string`) is unreachable here because
`VariableResolvedDataType` is a closed union. -/
def detectTokenType (localVar : LocalVariable) : TokenType :=
  match localVar.resolvedType with
  | VariableResolvedDataType.COLOR => TokenType.color
  | VariableResolvedDataType.BOOLEAN => TokenType.boolean
  | VariableResolvedDataType.STRING =>
      if localVar.scopes.contains "FONT_FAMILY" then TokenType.fontFamily
      else TokenType.string
  | VariableResolvedDataType.FLOAT =>
      if localVar.scopes.contains "FONT_WEIGHT" then TokenType.fontWeight
      else if localVar.scopes.contains "CORNER_RADIUS"
          ∨ localVar.scopes.contains "WIDTH_HEIGHT"
          ∨ localVar.scopes.contains "GAP"
          ∨ localVar.scopes.contains "FONT_SIZE"
          ∨ localVar.scopes.contains "LINE_HEIGHT"
          ∨ localVar.scopes.contains "LETTER_SPACING" then TokenType.dimension
      else TokenType.number

/-- The `segment.toLowerCase().replace(/\s+/g, '-')` normalization used when
converting a referenced variable's slash path to dot notation (each maximal
whitespace run becomes one dash). -/
def kebabSegment (s : String) : String :=
  let rec go : List Char → Bool → List Char
    | [], pending => if pending then ['-'] else []
    | c :: rest, pending =>
        if c.isWhitespace then go rest true
        else if pending then '-' :: c :: go rest false
        else c :: go rest false
  String.mk (go s.toLower.toList false)

/-- `createTokenReference` from the read-path parser: resolve the alias id and
build a `{dot.path}` reference string; an unknown id is embedded raw. -/
def createTokenReference (aliasId : String) (variablesById : List (String × LocalVariable)) :
    TokenValue :=
  match lookupAssoc variablesById aliasId with
  | Option.none => TokenValue.reference ("\x7b" ++ aliasId ++ "\x7d")
  | Option.some referencedVar =>
      let path := String.intercalate "."
        ((referencedVar.name.splitOn "/").map kebabSegment)
      TokenValue.reference ("\x7b" ++ path ++ "\x7d")

/-- `createToken` from the read-path parser: infer the type, then convert the
mode value; `localVar.description || undefined` drops the empty string. -/
def createToken (localVar : LocalVariable) (value : FigmaModeValue)
    (variablesById : List (String × LocalVariable)) : Token :=
  let tokenType := detectTokenType localVar
  let tokenValue : TokenValue :=
    match value with
    | FigmaModeValue.alias aliasId => createTokenReference aliasId variablesById
    | FigmaModeValue.rgba c => TokenValue.color (convertFigmaColor c)
    | FigmaModeValue.number n => convertFigmaNumber n localVar.scopes
    | FigmaModeValue.string s =>
        if tokenType = TokenType.fontFamily then TokenValue.fontFamily [s]
        else TokenValue.string s
    | FigmaModeValue.boolean b => TokenValue.boolean b
  { type' := tokenType
    value' := tokenValue
    description := if localVar.description = "" then Option.none
                   else Option.some localVar.description
    hidden := localVar.hiddenFromPublishing }

-- =============================================================================
-- Composite-style transformer (styles-transformer.ts)
-- =============================================================================

/-- A Figma text-style line-height / letter-spacing record. -/
structure StyleUnitValue where
  unit : String
  value : ℚ
deriving DecidableEq, Repr

/-- `FigmaTextStyle` (types the styles transformer constructs). -/
structure FigmaTextStyle where
  name : String
  fontFamily : String
  fontSize : ℚ
  fontWeight : ℚ
  description : Option String
  lineHeight : Option StyleUnitValue
  letterSpacing : Option StyleUnitValue
  textCase : Option String
deriving DecidableEq, Repr

/-- `extractDimensionValue` from `styles-transformer.ts`. -/
def extractDimensionValue (dim : DimensionValue) : ℚ :=
  dim.value

/-- `normalizeFontWeight` from `styles-transformer.ts` (same table as
`fontWeightToNumber`). -/
def normalizeFontWeight : FontWeightValue → ℚ
  | FontWeightValue.num n => n
  | FontWeightValue.keyword s => (lookupAssoc fontWeightKeywords s.toLower).getD 400

/-- `textTransformToTextCase` from `styles-transformer.ts`. -/
def textTransformToTextCase : TextTransform → String
  | TextTransform.uppercase => "UPPER"
  | TextTransform.lowercase => "LOWER"
  | TextTransform.capitalize => "TITLE"
  | TextTransform.none => "ORIGINAL"

/-- `typographyToTextStyle` from `styles-transformer.ts`.  The
`value.fontFamily[0] || 'Inter'` fallback also fires on an empty first entry,
and `if (description)` drops the empty string (JS truthiness). -/
def typographyToTextStyle (name : String) (value : TypographyValue)
    (description : Option String) : FigmaTextStyle :=
  { name := name
    fontFamily :=
      match value.fontFamily.head? with
      | Option.some s => if s = "" then "Inter" else s
      | Option.none => "Inter"
    fontSize := extractDimensionValue value.fontSize
    fontWeight := normalizeFontWeight value.fontWeight
    description :=
      match description with
      | Option.some d => if d = "" then Option.none else Option.some d
      | Option.none => Option.none
    lineHeight :=
      match value.lineHeight with
      | Option.some (LineHeightValue.multiplier n) =>
          Option.some { unit := "PERCENT", value := n * 100 }
      | Option.some (LineHeightValue.dim d) =>
          Option.some { unit := "PIXELS", value := extractDimensionValue d }
      | Option.none => Option.none
    letterSpacing :=
      match value.letterSpacing with
      | Option.some d => Option.some { unit := "PIXELS", value := extractDimensionValue d }
      | Option.none => Option.none
    textCase :=
      match value.textTransform with
      | Option.some t => Option.some (textTransformToTextCase t)
      | Option.none => Option.none }

/-- `FigmaEffect` (one drop/inner shadow). -/
structure FigmaEffect where
  type' : String
  visible : Bool
  blendMode : String
  color : RGBA
  offsetX : ℚ
  offsetY : ℚ
  radius : ℚ
  spread : ℚ
deriving DecidableEq, Repr

/-- `FigmaEffectStyle`. -/
structure FigmaEffectStyle where
  name : String
  effects : List FigmaEffect
  description : Option String
deriving DecidableEq, Repr

/-- `shadowToFigmaEffect` from `styles-transformer.ts`. -/
def shadowToFigmaEffect (shadow : ShadowValue) : FigmaEffect :=
  { type' := if shadow.inset then "INNER_SHADOW" else "DROP_SHADOW"
    visible := true
    blendMode := "NORMAL"
    color := colorToFigmaRGBA shadow.color
    offsetX := extractDimensionValue shadow.offsetX
    offsetY := extractDimensionValue shadow.offsetY
    radius := extractDimensionValue shadow.blur
    spread :=
      match shadow.spread with
      | Option.some d => extractDimensionValue d
      | Option.none => 0 }

/-- `shadowToEffectStyle` from `styles-transformer.ts`: a single value is
wrapped into a one-element list. -/
def shadowToEffectStyle (name : String) (value : List ShadowValue)
    (description : Option String) : FigmaEffectStyle :=
  { name := name
    effects := value.map shadowToFigmaEffect
    description :=
      match description with
      | Option.some d => if d = "" then Option.none else Option.some d
      | Option.none => Option.none }

/-- `FigmaGradientStop`. -/
structure FigmaGradientStop where
  color : RGBA
  position : ℚ
deriving DecidableEq, Repr

/-- `FigmaPaint`.  Handle positions live in `ℝ` because the source computes
them with `Math.cos` / `Math.sin`. -/
structure FigmaPaint where
  type' : String
  visible : Bool
  blendMode : String
  gradientStops : List FigmaGradientStop
  gradientHandlePositions : List (ℝ × ℝ)

/-- `FigmaPaintStyle`. -/
structure FigmaPaintStyle where
  name : String
  paints : List FigmaPaint
  description : Option String

/-- `gradientTypeToFigma` from `styles-transformer.ts`. -/
def gradientTypeToFigma : GradientType → String
  | GradientType.linear => "GRADIENT_LINEAR"
  | GradientType.radial => "GRADIENT_RADIAL"
  | GradientType.conic => "GRADIENT_ANGULAR"

/-- The handle computation inside `gradientToFigmaPaint`: rotate by
`(angle - 90)` degrees and place start/end symmetric about the center plus a
perpendicular width handle. -/
noncomputable def gradientHandlePositions (angle : ℝ) : List (ℝ × ℝ) :=
  let radians := (angle - 90) * (Real.pi / 180)
  let c := Real.cos radians
  let s := Real.sin radians
  [(0.5 - c * 0.5, 0.5 - s * 0.5),
   (0.5 + c * 0.5, 0.5 + s * 0.5),
   (0.5 - s * 0.5, 0.5 + c * 0.5)]

/-- The radians computation inside `gradientToFigmaPaint`:
`(angle − 90) × π / 180` with the angle defaulting to 180. -/
noncomputable def gradientRadians (g : GradientValue) : ℝ :=
  (((g.angle.getD 180 : ℚ) : ℝ) - 90) * (Real.pi / 180)

/-- `gradientToFigmaPaint` from `styles-transformer.ts`; the angle defaults to
180 (top to bottom). -/
noncomputable def gradientToFigmaPaint (gradient : GradientValue) : FigmaPaint :=
  { type' := gradientTypeToFigma gradient.type'
    visible := true
    blendMode := "NORMAL"
    gradientStops := gradient.stops.map
      (fun stop => { color := colorToFigmaRGBA stop.color, position := stop.position })
    gradientHandlePositions := gradientHandlePositions ((gradient.angle.getD 180 : ℚ) : ℝ) }

/-- `gradientToPaintStyle` from `styles-transformer.ts`. -/
noncomputable def gradientToPaintStyle (name : String) (value : GradientValue)
    (description : Option String) : FigmaPaintStyle :=
  { name := name
    paints := [gradientToFigmaPaint value]
    description :=
      match description with
      | Option.some d => if d = "" then Option.none else Option.some d
      | Option.none => Option.none }

/-- `PluginTextStyleParams` (always a CREATE op). -/
structure PluginTextStyleParams where
  action : String
  style : FigmaTextStyle
deriving DecidableEq, Repr

/-- `PluginEffectStyleParams`. -/
structure PluginEffectStyleParams where
  action : String
  style : FigmaEffectStyle
deriving DecidableEq, Repr

/-- `PluginPaintStyleParams`. -/
structure PluginPaintStyleParams where
  action : String
  style : FigmaPaintStyle

/-- `StyleTokenResult` from `styles-transformer.ts`. -/
structure StyleTokenResult where
  textStyles : List PluginTextStyleParams
  effectStyles : List PluginEffectStyleParams
  paintStyles : List PluginPaintStyleParams

/-- The unchecked `token.$value as TypographyValue` cast in the typography
branch; a shape-mismatched value yields an arbitrary record (no claim
exercises that input). -/
def asTypography : TokenValue → TypographyValue
  | TokenValue.typography t => t
  | _ => { fontFamily := [], fontSize := { value := 0, unit := "px" },
           fontWeight := FontWeightValue.num 0, lineHeight := Option.none,
           letterSpacing := Option.none, textTransform := Option.none }

/-- The `token.$value as ShadowValue | ShadowValue[]` cast followed by the
`Array.isArray` normalization in `shadowToEffectStyle`. -/
def asShadowList : TokenValue → List ShadowValue
  | TokenValue.shadowOne s => [s]
  | TokenValue.shadowMany ss => ss
  | _ => []

/-- The unchecked `token.$value as GradientValue` cast. -/
def asGradient : TokenValue → GradientValue
  | TokenValue.gradient g => g
  | _ => { type' := GradientType.linear, angle := Option.none, stops := [] }

/-- The call `report.addStyle(kind)` issued by `traverseForStyles`
(styles-transformer.ts:335/349/363).  `TransformationReportBuilder`
(report.ts) defines no `addStyle` method and no per-kind style counters, so
at run time the call raises `TypeError: report.addStyle is not a function`;
modelled as the error case. -/
def addStyleCall (_report : Report) (_kind : String) : Except String Report :=
  Except.error "TypeError: report.addStyle is not a function"

mutual
/-- One entry step of `traverseForStyles` from `styles-transformer.ts`:
strings and `$`-keys are skipped, style-kind leaves are converted, pushed and
counted via `report.addStyle`, other leaves are ignored, groups are recursed
into. -/
def traverseStyleNode (path : List String) (collectionName : String) (key : String)
    (v : Node) (acc : StyleTokenResult × Report) :
    Except String (StyleTokenResult × Report) :=
  match v with
  | Node.str _ => Except.ok acc
  | Node.leaf token =>
      if startsWithDollar key then Except.ok acc
      else
        let styleName := String.intercalate "/" (path ++ [key])
        match token.type' with
        | TokenType.typography =>
            let textStyle := typographyToTextStyle styleName (asTypography token.value')
              token.description
            let result' := { acc.1 with textStyles := acc.1.textStyles ++
              [{ action := "CREATE", style := textStyle }] }
            match addStyleCall acc.2 "text" with
            | Except.error e => Except.error e
            | Except.ok report' => Except.ok (result', report')
        | TokenType.shadow =>
            let effectStyle := shadowToEffectStyle styleName (asShadowList token.value')
              token.description
            let result' := { acc.1 with effectStyles := acc.1.effectStyles ++
              [{ action := "CREATE", style := effectStyle }] }
            match addStyleCall acc.2 "effect" with
            | Except.error e => Except.error e
            | Except.ok report' => Except.ok (result', report')
        | TokenType.gradient =>
            let paintStyle := gradientToPaintStyle styleName (asGradient token.value')
              token.description
            let result' := { acc.1 with paintStyles := acc.1.paintStyles ++
              [{ action := "CREATE", style := paintStyle }] }
            match addStyleCall acc.2 "paint" with
            | Except.error e => Except.error e
            | Except.ok report' => Except.ok (result', report')
        | _ => Except.ok acc
  | Node.group es =>
      if startsWithDollar key then Except.ok acc
      else traverseStyleEntries (path ++ [key]) collectionName es acc

/-- `traverseForStyles` from `styles-transformer.ts`, over the entries of a
group. -/
def traverseStyleEntries (path : List String) (collectionName : String) :
    Entries → StyleTokenResult × Report → Except String (StyleTokenResult × Report)
  | Entries.nil, acc => Except.ok acc
  | Entries.cons key v rest, acc =>
      match traverseStyleNode path collectionName key v acc with
      | Except.error e => Except.error e
      | Except.ok acc' => traverseStyleEntries path collectionName rest acc'
end

/-- The per-collection loop of `extractStyleTokens` from
`styles-transformer.ts`. -/
def extractStyleCollections (report : Report) :
    List TokenCollection → StyleTokenResult → Except String (StyleTokenResult × Report)
  | [], result => Except.ok (result, report)
  | collection :: rest, result =>
      match lookupAssoc collection.tokens collection.defaultMode with
      | Option.none => extractStyleCollections report rest result
      | Option.some defaultTokens =>
          match traverseStyleEntries [] collection.name defaultTokens (result, report) with
          | Except.error e => Except.error e
          | Except.ok acc' => extractStyleCollections acc'.2 rest acc'.1

/-- `extractStyleTokens` from `styles-transformer.ts`. -/
def extractStyleTokens (theme : ThemeFile) (report : Report) :
    Except String (StyleTokenResult × Report) :=
  extractStyleCollections report theme.collections
    { textStyles := [], effectStyles := [], paintStyles := [] }

-- =============================================================================
-- Concrete instances used by witnesses and counterexamples
-- =============================================================================

/-- A theme whose recorded origin-file id is `"X"`. -/
def themeFromX : ThemeFile :=
  { name := "t", collections := [], meta := Option.some { figmaFileKey := Option.some "X" } }

/-- A theme whose recorded origin-file id is the empty string. -/
def themeFromEmptyKey : ThemeFile :=
  { name := "t", collections := [], meta := Option.some { figmaFileKey := Option.some "" } }

/-- A dimension token with unit `"rem"`. -/
def remToken : Token :=
  { type' := TokenType.dimension
    value' := TokenValue.dimension { value := 32, unit := "rem" }
    description := Option.none
    hidden := false }

/-- A Figma variable with resolved type `FLOAT` and the single scope
`STROKE_FLOAT`. -/
def strokeFloatVar : LocalVariable :=
  { id := "v1", name := "stroke/width", resolvedType := VariableResolvedDataType.FLOAT,
    scopes := ["STROKE_FLOAT"], valuesByMode := [], hiddenFromPublishing := false,
    description := "" }

/-- A Figma variable with resolved type `FLOAT` and the single scope `GAP`. -/
def gapVar : LocalVariable :=
  { id := "v2", name := "spacing/gap", resolvedType := VariableResolvedDataType.FLOAT,
    scopes := ["GAP"], valuesByMode := [], hiddenFromPublishing := false,
    description := "" }

/-- A Figma variable with resolved type `FLOAT` and no scopes. -/
def plainFloatVar : LocalVariable :=
  { id := "v3", name := "count/max", resolvedType := VariableResolvedDataType.FLOAT,
    scopes := [], valuesByMode := [], hiddenFromPublishing := false,
    description := "" }

/-- A Figma variable with resolved type `FLOAT` and the single scope
`PARAGRAPH_SPACING`. -/
def paragraphSpacingVar : LocalVariable :=
  { id := "v4", name := "text/spacing", resolvedType := VariableResolvedDataType.FLOAT,
    scopes := ["PARAGRAPH_SPACING"], valuesByMode := [], hiddenFromPublishing := false,
    description := "" }

/-- A two-mode collection with no token trees. -/
def modesCollection : TokenCollection :=
  { name := "colors", modes := ["light", "dark"], defaultMode := "light", tokens := [] }

/-- A theme holding `modesCollection` only. -/
def modesTheme : ThemeFile :=
  { name := "T", collections := [modesCollection], meta := Option.none }

/-- A shadow token (composite kind). -/
def shadowToken : Token :=
  { type' := TokenType.shadow, value' := TokenValue.shadowMany [],
    description := Option.none, hidden := false }

/-- A one-collection, one-mode theme with a single shadow token at
`shadow.card`. -/
def skipWitnessCollection : TokenCollection :=
  { name := "tokens", modes := ["default"], defaultMode := "default",
    tokens := [("default",
      Entries.cons "shadow"
        (Node.group (Entries.cons "card" (Node.leaf shadowToken) Entries.nil))
        Entries.nil)] }

/-- The theme wrapping `skipWitnessCollection`. -/
def skipWitnessTheme : ThemeFile :=
  { name := "T", collections := [skipWitnessCollection], meta := Option.none }

/-- A typography token (well-shaped). -/
def typographyToken : Token :=
  { type' := TokenType.typography
    value' := TokenValue.typography
      { fontFamily := ["Inter"], fontSize := { value := 16, unit := "px" },
        fontWeight := FontWeightValue.keyword "bold", lineHeight := Option.none,
        letterSpacing := Option.none, textTransform := Option.none }
    description := Option.none
    hidden := false }

/-- A one-collection theme holding a single typography token at
`heading`. -/
def typographyTheme : ThemeFile :=
  { name := "T"
    collections :=
      [{ name := "t", modes := ["default"], defaultMode := "default",
         tokens := [("default", Entries.cons "heading" (Node.leaf typographyToken) Entries.nil)] }]
    meta := Option.none }

-- =============================================================================
-- Claim theorems
-- =============================================================================

/-- C1, counterexample.  With both file keys present (as the empty string) and
equal, and `allowSourceOverwrite` unset, `checkSourceSafety` returns normally
instead of raising: the source's falsiness test `!sourceFileKey` also fires on
a present-but-empty key, so the claimed "present and equal and not allowed ⇒
raises" direction is false. -/
theorem checkSourceSafety_emptyKey_no_raise :
    themeFromEmptyKey.meta.bind (·.figmaFileKey) = Option.some "" ∧
    (({ targetFileKey := Option.some "" } : FigmaOutputAdapterOptions).targetFileKey
        = Option.some "") ∧
    (({ targetFileKey := Option.some "" } : FigmaOutputAdapterOptions).allowSourceOverwrite
        = false) ∧
    checkSourceSafety themeFromEmptyKey { targetFileKey := Option.some "" } =
      Except.ok { sourceFileKey := Option.some "", targetFileKey := Option.some "",
                  isSameFile := false, overwriteAllowed := false } :=
  ⟨rfl, rfl, rfl, rfl⟩

/-- C1 (amended).  `checkSourceSafety` raises the distinguished overwrite
failure, carrying both file keys, exactly when the theme's origin-file key and
the requested target key are both present and non-empty and equal and
`allowSourceOverwrite` is not set; when either key is absent or empty it
returns without raising (with `isSameFile = false`), and when both keys are
present, non-empty and equal and overwriting is allowed it returns
`isSameFile = true` and `overwriteAllowed = true`. -/
theorem checkSourceSafety_overwrite_gate (theme : ThemeFile)
    (options : FigmaOutputAdapterOptions) :
    (∀ k, k ≠ "" → theme.meta.bind (·.figmaFileKey) = Option.some k →
        options.targetFileKey = Option.some k → options.allowSourceOverwrite = false →
        checkSourceSafety theme options =
          Except.error { sourceFileKey := k, targetFileKey := k }) ∧
    (∀ e, checkSourceSafety theme options = Except.error e →
        e.sourceFileKey = e.targetFileKey ∧ e.sourceFileKey ≠ "" ∧
        theme.meta.bind (·.figmaFileKey) = Option.some e.sourceFileKey ∧
        options.targetFileKey = Option.some e.targetFileKey ∧
        options.allowSourceOverwrite = false) ∧
    ((theme.meta.bind (·.figmaFileKey)).getD "" = "" ∨ options.targetFileKey.getD "" = "" →
        checkSourceSafety theme options = Except.ok
          { sourceFileKey := theme.meta.bind (·.figmaFileKey),
            targetFileKey := options.targetFileKey, isSameFile := false,
            overwriteAllowed := options.allowSourceOverwrite }) ∧
    (∀ k, k ≠ "" → theme.meta.bind (·.figmaFileKey) = Option.some k →
        options.targetFileKey = Option.some k → options.allowSourceOverwrite = true →
        checkSourceSafety theme options = Except.ok
          { sourceFileKey := Option.some k, targetFileKey := Option.some k,
            isSameFile := true, overwriteAllowed := true }) := by
  refine ⟨?_, ?_, ?_, ?_⟩
  · intro k hk hs ht ha
    simp [checkSourceSafety, hs, ht, truthyKey, hk, ha]
  · intro e he
    rcases hs : theme.meta.bind (·.figmaFileKey) with _ | k1 <;>
      rcases ht : options.targetFileKey with _ | k2 <;>
        simp [checkSourceSafety, hs, ht, truthyKey] at he
    by_cases h1 : k1 = "" <;> by_cases h2 : k2 = "" <;>
        by_cases h3 : k1 = k2 <;>
          by_cases h4 : options.allowSourceOverwrite = false <;>
            simp [h1, h2, h3, h4] at he
    all_goals simp [← he, h1, h2, h3, h4, hs, ht]
  · intro h
    rcases hs : theme.meta.bind (·.figmaFileKey) with _ | k1
    all_goals rcases ht : options.targetFileKey with _ | k2
    · simp [checkSourceSafety, hs, ht, truthyKey]
    · simp [checkSourceSafety, hs, ht, truthyKey]
    · simp [checkSourceSafety, hs, ht, truthyKey]
    · simp [hs, ht] at h
      rcases h with h | h <;> simp [checkSourceSafety, hs, ht, truthyKey, h]
  · intro k hk hs ht ha
    simp [checkSourceSafety, hs, ht, truthyKey, hk, ha]

/-- C1 witness: at concrete keys `"X" = "X"` without permission the check
raises the overwrite failure carrying both keys. -/
theorem checkSourceSafety_overwrite_gate_witness :
    checkSourceSafety themeFromX { targetFileKey := Option.some "X" } =
      Except.error { sourceFileKey := "X", targetFileKey := "X" } :=
  (checkSourceSafety_overwrite_gate themeFromX
    { targetFileKey := Option.some "X" }).1 "X" (by decide) rfl rfl rfl

/-- C2: the composite-style extraction cannot process a single style token
without raising.  `traverseForStyles` (styles-transformer.ts) counts each
produced style via `report.addStyle(kind)`, but `TransformationReportBuilder`
(report.ts) defines no `addStyle` method and its stats record has no per-kind
style counters, so the call fails with a `TypeError` on the first typography,
shadow or gradient token — here on a theme holding one typography token. -/
theorem extractStyleTokens_addStyle_typeError :
    extractStyleTokens typographyTheme Report.init =
      Except.error "TypeError: report.addStyle is not a function" := by
  rfl

/-- C3: `transformToFigmaVariables` is deterministic in the module-global id
counter: it begins with `resetIdCounter()`, so two calls on the same theme and
options — whatever counter value each call starts from, in particular with the
counter reset between the calls — produce identical results: byte-identical
request bodies (all synthetic collection, mode and variable ids included),
identical reports, and identical final counters. -/
theorem transformToFigmaVariables_deterministic (theme : ThemeFile)
    (options : FigmaOutputAdapterOptions) (counter1 counter2 : Nat) :
    transformToFigmaVariables theme options counter1 =
      transformToFigmaVariables theme options counter2 := by
  rfl

/-- C6: converting a dimension token whose unit is not `"px"` emits the bare
number as the mode value and appends exactly one `UNIT_DISCARDED` warning
referencing the token's path (`tokenValueToFigma` is invoked by
`transformToFigmaVariables` once per processed (variable, mode) pair). -/
theorem tokenValueToFigma_unit_discarded (token : Token) (d : DimensionValue)
    (report : Report) (path : String)
    (htype : token.type' = TokenType.dimension)
    (hval : token.value' = TokenValue.dimension d)
    (hunit : d.unit ≠ "px") :
    (tokenValueToFigma token report path).1 =
      Option.some (FigmaVariableValue.float d.value) ∧
    (tokenValueToFigma token report path).2.warnings = report.warnings ++
      [{ code := WarningCode.UNIT_DISCARDED,
         message := "Unit " ++ d.unit ++ " discarded, stored as raw number",
         path := Option.some path }] := by
  obtain ⟨ty, v, de, hi⟩ := token
  simp only at htype hval
  subst htype
  subst hval
  constructor <;>
    simp [tokenValueToFigma, dimensionToNumber, hunit, Report.addWarning]

/-- C6 witness: a `32rem` dimension token converts to the bare `32` with one
`UNIT_DISCARDED` warning at the given path. -/
theorem tokenValueToFigma_unit_discarded_witness :
    (tokenValueToFigma remToken Report.init "tokens.default.spacing.large").1 =
      Option.some (FigmaVariableValue.float 32) ∧
    (tokenValueToFigma remToken Report.init "tokens.default.spacing.large").2.warnings =
      [] ++
      [{ code := WarningCode.UNIT_DISCARDED,
         message := "Unit " ++ "rem" ++ " discarded, stored as raw number",
         path := Option.some "tokens.default.spacing.large" }] :=
  tokenValueToFigma_unit_discarded remToken { value := 32, unit := "rem" } Report.init
    "tokens.default.spacing.large" rfl rfl (by decide)

/-- C7: for every RGBA color with components in `[0,1]`, the write-path color
converter is a left inverse of the read-path converter — color normalization
is lossless. -/
theorem colorToFigmaRGBA_convertFigmaColor (c : RGBA)
    (h : 0 ≤ c.r ∧ c.r ≤ 1 ∧ 0 ≤ c.g ∧ c.g ≤ 1 ∧ 0 ≤ c.b ∧ c.b ≤ 1 ∧ 0 ≤ c.a ∧ c.a ≤ 1) :
    colorToFigmaRGBA (convertFigmaColor c) = c := by
  cases c
  rfl

/-- C7 witness at a concrete in-range color. -/
theorem colorToFigmaRGBA_convertFigmaColor_witness :
    colorToFigmaRGBA (convertFigmaColor { r := 1/2, g := 0, b := 1, a := 1 }) =
      { r := 1/2, g := 0, b := 1, a := 1 } :=
  colorToFigmaRGBA_convertFigmaColor { r := 1/2, g := 0, b := 1, a := 1 }
    (by norm_num)

/-- C4, counterexample.  A `FLOAT` variable whose single scope is
`STROKE_FLOAT` is inferred as a `number` token by `detectTokenType` (whose
dimension scope list lacks `STROKE_FLOAT`), yet `convertFigmaNumber` (whose
`dimensionScopes` list contains it) converts its value to a
`{value, unit: "px"}` record: the type tag and the value shape disagree. -/
theorem createToken_strokeFloat_shape_mismatch :
    detectTokenType strokeFloatVar = TokenType.number ∧
    (createToken strokeFloatVar (FigmaModeValue.number 5) []).type' = TokenType.number ∧
    (createToken strokeFloatVar (FigmaModeValue.number 5) []).value' =
      TokenValue.dimension { value := 5, unit := "px" } := by
  refine ⟨by decide, by decide, by decide⟩

/-- C4 (amended).  For every host variable and numeric mode value, the token
built by `createToken` carries the type inferred by `detectTokenType`; a
dimension-inferred token always carries a `{value, unit: "px"}` record; a
number-inferred token carries the plain number when none of the scopes
`STROKE_FLOAT`, `PARAGRAPH_SPACING`, `PARAGRAPH_INDENT` is present; and a
number-inferred token whose scopes do include one of those three carries a
`{value, unit: "px"}` record (those three make `convertFigmaNumber` produce a
dimension record although `detectTokenType` infers `number`). -/
theorem createToken_number_value_shape (localVar : LocalVariable) (n : ℚ)
    (variablesById : List (String × LocalVariable)) :
    ((createToken localVar (FigmaModeValue.number n) variablesById).type' =
        detectTokenType localVar) ∧
    (detectTokenType localVar = TokenType.dimension →
      (createToken localVar (FigmaModeValue.number n) variablesById).value' =
        TokenValue.dimension { value := n, unit := "px" }) ∧
    (detectTokenType localVar = TokenType.number →
      localVar.scopes.contains "STROKE_FLOAT" = false →
      localVar.scopes.contains "PARAGRAPH_SPACING" = false →
      localVar.scopes.contains "PARAGRAPH_INDENT" = false →
      (createToken localVar (FigmaModeValue.number n) variablesById).value' =
        TokenValue.number n) ∧
    (detectTokenType localVar = TokenType.number →
      (localVar.scopes.contains "STROKE_FLOAT" = true ∨
       localVar.scopes.contains "PARAGRAPH_SPACING" = true ∨
       localVar.scopes.contains "PARAGRAPH_INDENT" = true) →
      (createToken localVar (FigmaModeValue.number n) variablesById).value' =
        TokenValue.dimension { value := n, unit := "px" }) := by
  refine ⟨rfl, ?_, ?_, ?_⟩
  · intro h
    have hany : (localVar.scopes.any fun scope => dimensionScopes.contains scope) = true := by
      rcases hrt : localVar.resolvedType
      · simp [detectTokenType, hrt] at h
      · simp only [detectTokenType, hrt] at h
        split at h
        · simp at h
        · split at h
          · rename_i hc
            rw [List.any_eq_true]
            rcases hc with hc | hc | hc | hc | hc | hc <;>
              exact ⟨_, by simpa using hc, by decide⟩
          · simp at h
      · simp only [detectTokenType, hrt] at h
        split at h <;> simp at h
      · simp [detectTokenType, hrt] at h
    have hv : (createToken localVar (FigmaModeValue.number n) variablesById).value' =
        convertFigmaNumber n localVar.scopes := rfl
    rw [hv]
    unfold convertFigmaNumber
    simp only [hany]
    simp
  · intro h h1 h2 h3
    have hnone : ∀ x ∈ localVar.scopes, x ∉ dimensionScopes := by
      rcases hrt : localVar.resolvedType
      · simp [detectTokenType, hrt] at h
      · simp only [detectTokenType, hrt] at h
        split at h
        · simp at h
        · split at h
          · simp at h
          · rename_i hc
            intro x hx hxd
            simp only [dimensionScopes, List.mem_cons, List.not_mem_nil, or_false] at hxd
            rcases hxd with rfl | rfl | rfl | rfl | rfl | rfl | rfl | rfl | rfl <;>
              simp_all
      · simp only [detectTokenType, hrt] at h
        split at h <;> simp at h
      · simp [detectTokenType, hrt] at h
    have hany : (localVar.scopes.any fun scope => dimensionScopes.contains scope) = false := by
      rw [List.any_eq_false]
      intro x hx
      simpa using hnone x hx
    have hv : (createToken localVar (FigmaModeValue.number n) variablesById).value' =
        convertFigmaNumber n localVar.scopes := rfl
    rw [hv]
    unfold convertFigmaNumber
    simp only [hany]
    simp
  · intro _h hsc
    have hany : (localVar.scopes.any fun scope => dimensionScopes.contains scope) = true := by
      rw [List.any_eq_true]
      rcases hsc with hc | hc | hc <;> exact ⟨_, by simpa using hc, by decide⟩
    have hv : (createToken localVar (FigmaModeValue.number n) variablesById).value' =
        convertFigmaNumber n localVar.scopes := rfl
    rw [hv]
    unfold convertFigmaNumber
    simp only [hany]
    simp

/-- C4 witness exercising each value-shape branch of the amended claim: a
`GAP`-scoped float is dimension-inferred and carries a px record; an unscoped
float is number-inferred and carries the plain number; a
`PARAGRAPH_SPACING`-scoped float is number-inferred yet carries a px
record. -/
theorem createToken_number_value_shape_witness :
    ((createToken gapVar (FigmaModeValue.number 8) []).value' =
      TokenValue.dimension { value := 8, unit := "px" }) ∧
    ((createToken plainFloatVar (FigmaModeValue.number 3) []).value' =
      TokenValue.number 3) ∧
    ((createToken paragraphSpacingVar (FigmaModeValue.number 5) []).value' =
      TokenValue.dimension { value := 5, unit := "px" }) :=
  ⟨(createToken_number_value_shape gapVar 8 []).2.1 (by decide),
   (createToken_number_value_shape plainFloatVar 3 []).2.2.1 (by decide) (by decide)
     (by decide) (by decide),
   (createToken_number_value_shape paragraphSpacingVar 5 []).2.2.2 (by decide)
     (by decide)⟩

/-- C9: for every gradient token, the paint emitted by `gradientToFigmaPaint`
has exactly the three handles obtained by rotating a unit vector by
`(angle − 90)` degrees (angle defaulting to 180): start and end symmetric
about the center `(0.5, 0.5)` and a third width handle perpendicular to the
start-end axis. -/
theorem gradientToFigmaPaint_handles (g : GradientValue) :
    (gradientToFigmaPaint g).gradientHandlePositions =
      [(1/2 - Real.cos (gradientRadians g) / 2, 1/2 - Real.sin (gradientRadians g) / 2),
       (1/2 + Real.cos (gradientRadians g) / 2, 1/2 + Real.sin (gradientRadians g) / 2),
       (1/2 - Real.sin (gradientRadians g) / 2, 1/2 + Real.cos (gradientRadians g) / 2)] ∧
    (((gradientToFigmaPaint g).gradientHandlePositions[0]!).1 +
       ((gradientToFigmaPaint g).gradientHandlePositions[1]!).1 = 1 ∧
     ((gradientToFigmaPaint g).gradientHandlePositions[0]!).2 +
       ((gradientToFigmaPaint g).gradientHandlePositions[1]!).2 = 1) ∧
    ((((gradientToFigmaPaint g).gradientHandlePositions[1]!).1 -
        ((gradientToFigmaPaint g).gradientHandlePositions[0]!).1) *
       (((gradientToFigmaPaint g).gradientHandlePositions[2]!).1 - 1/2) +
     (((gradientToFigmaPaint g).gradientHandlePositions[1]!).2 -
        ((gradientToFigmaPaint g).gradientHandlePositions[0]!).2) *
       (((gradientToFigmaPaint g).gradientHandlePositions[2]!).2 - 1/2) = 0) := by
  have h : (gradientToFigmaPaint g).gradientHandlePositions =
      [(1/2 - Real.cos (gradientRadians g) / 2, 1/2 - Real.sin (gradientRadians g) / 2),
       (1/2 + Real.cos (gradientRadians g) / 2, 1/2 + Real.sin (gradientRadians g) / 2),
       (1/2 - Real.sin (gradientRadians g) / 2, 1/2 + Real.cos (gradientRadians g) / 2)] := by
    simp [gradientToFigmaPaint, gradientHandlePositions, gradientRadians]
    ring_nf
    simp
  refine ⟨h, ⟨?_, ?_⟩, ?_⟩
  · rw [h]
    simp
    ring
  · rw [h]
    simp
    ring
  · rw [h]
    simp
    ring

-- Helper lemmas about the transformer's state transitions (shared by the
-- claims below).

/-- The mode-create ops built for a collection carry the non-default declared
mode names, in declared order. -/
theorem buildModes_creates_names (pfx cid d : String) :
    ∀ (modes : List String) (ctr : Nat) (m0 : List (String × String)),
      ((buildModes pfx cid d modes ctr m0).2.2).map (·.name) =
        modes.filter (fun m => m ≠ d) := by
  intro modes
  induction modes with
  | nil => intro ctr m0; simp [buildModes]
  | cons m rest ih =>
      intro ctr m0
      by_cases h : m = d <;> simp [buildModes, h, ih]

/-- Every mode-create op built for a collection references that collection's
id. -/
theorem buildModes_creates_collectionId (pfx cid d : String) :
    ∀ (modes : List String) (ctr : Nat) (m0 : List (String × String)),
      ∀ mc ∈ (buildModes pfx cid d modes ctr m0).2.2, mc.variableCollectionId = cid := by
  intro modes
  induction modes with
  | nil => intro ctr m0 mc hmc; simp [buildModes] at hmc
  | cons m rest ih =>
      intro ctr m0 mc hmc
      by_cases h : m = d
      · rw [buildModes] at hmc
        simp only [h, if_pos rfl] at hmc
        exact ih _ _ mc hmc
      · rw [buildModes] at hmc
        simp only [h, if_neg h] at hmc
        rcases List.mem_cons.mp hmc with rfl | hmc'
        · rfl
        · exact ih _ _ mc hmc'

/-- Processing one token never touches the collection-create list. -/
theorem processToken_variableCollections (options : FigmaOutputAdapterOptions)
    (c : TokenCollection) (cid pfx : String) (mids : List (String × String))
    (st : TransformState) (pt : List String × Token) :
    (processToken options c cid pfx mids st pt).body.variableCollections =
      st.body.variableCollections := by
  obtain ⟨path, token⟩ := pt
  simp only [processToken]
  split
  · rfl
  · split
    · rfl
    · split
      · rfl
      · rfl

/-- Processing one token never touches the mode-create list. -/
theorem processToken_variableModes (options : FigmaOutputAdapterOptions)
    (c : TokenCollection) (cid pfx : String) (mids : List (String × String))
    (st : TransformState) (pt : List String × Token) :
    (processToken options c cid pfx mids st pt).body.variableModes =
      st.body.variableModes := by
  obtain ⟨path, token⟩ := pt
  simp only [processToken]
  split
  · rfl
  · split
    · rfl
    · split
      · rfl
      · rfl

/-- The token fold never touches the mode-create list. -/
theorem foldl_processToken_variableModes (options : FigmaOutputAdapterOptions)
    (c : TokenCollection) (cid pfx : String) (mids : List (String × String)) :
    ∀ (l : List (List String × Token)) (st : TransformState),
      ((l.foldl (processToken options c cid pfx mids) st).body.variableModes =
        st.body.variableModes) := by
  intro l
  induction l with
  | nil => intro st; rfl
  | cons pt rest ih =>
      intro st
      rw [List.foldl_cons, ih, processToken_variableModes]

/-- Processing one collection appends exactly its non-default declared mode
names, in declared order, to the mode-create list. -/
theorem processCollection_modes_names (options : FigmaOutputAdapterOptions)
    (pfx : String) (st : TransformState) (c : TokenCollection) :
    (processCollection options pfx st c).body.variableModes.map (·.name) =
      st.body.variableModes.map (·.name) ++
        c.modes.filter (fun m => m ≠ c.defaultMode) := by
  unfold processCollection
  split
  · simp [buildModes_creates_names]
  · rw [foldl_processToken_variableModes]
    simp [buildModes_creates_names]

/-- The collection fold accumulates the per-collection non-default mode
names, collection by collection. -/
theorem foldl_processCollection_modes_names (options : FigmaOutputAdapterOptions)
    (pfx : String) :
    ∀ (cs : List TokenCollection) (st : TransformState),
      ((cs.foldl (processCollection options pfx) st).body.variableModes.map (·.name)) =
        st.body.variableModes.map (·.name) ++
          (cs.map (fun c => c.modes.filter (fun m => m ≠ c.defaultMode))).flatten := by
  intro cs
  induction cs with
  | nil => intro st; simp
  | cons c rest ih =>
      intro st
      rw [List.foldl_cons, ih, processCollection_modes_names]
      simp

/-- On a duplicate-free list containing `d`, dropping `d` removes exactly one
element. -/
theorem filter_ne_length_of_nodup (d : String) :
    ∀ (l : List String), l.Nodup → d ∈ l →
      (l.filter (fun m => m ≠ d)).length = l.length - 1 := by
  intro l
  induction l with
  | nil => intro _ hm; cases hm
  | cons a tl ih =>
      intro hn hm
      by_cases h : a = d
      · subst h
        have hna : a ∉ tl := (List.nodup_cons.mp hn).1
        have hfil : tl.filter (fun m => m ≠ a) = tl := by
          rw [List.filter_eq_self]
          intro x hx
          simp only [decide_eq_true_eq]
          intro hxa
          exact hna (hxa ▸ hx)
        rw [List.filter_cons]
        have hd : (decide (a ≠ a)) = false := by simp
        rw [hd]
        simp only [Bool.false_eq_true, if_false]
        rw [hfil]
        simp
      · have hm' : d ∈ tl := by
          rcases List.mem_cons.mp hm with rfl | hm'
          · exact absurd rfl h
          · exact hm'
        have hpos : 0 < tl.length := List.length_pos_of_mem hm'
        have hlen := ih (List.nodup_cons.mp hn).2 hm'
        have ha : (decide (a ≠ d)) = true := by simpa using h
        rw [List.filter_cons, ha]
        simp only [if_true, List.length_cons, hlen]
        omega

/-- C8: `transformToFigmaVariables` emits, per collection in order, one
mode-create per non-default declared mode, in declared order; for a collection
whose duplicate-free mode list contains its default mode, that is exactly
`|modes| − 1` mode-creates (the default mode is bound as the
collection-create's initial mode instead). -/
theorem transformToFigmaVariables_mode_creates (theme : ThemeFile)
    (options : FigmaOutputAdapterOptions) (counter : Nat) :
    ((transformToFigmaVariables theme options counter).1.requestBody.variableModes.map
        (·.name) =
      (theme.collections.map (fun c => c.modes.filter (fun m => m ≠ c.defaultMode))).flatten) ∧
    (∀ c ∈ theme.collections, c.modes.Nodup → c.defaultMode ∈ c.modes →
      (c.modes.filter (fun m => m ≠ c.defaultMode)).length = c.modes.length - 1) := by
  constructor
  · rw [transformToFigmaVariables]
    rw [foldl_processCollection_modes_names]
    simp
  · intro c _ hn hm
    exact filter_ne_length_of_nodup c.defaultMode c.modes hn hm

/-- C8 witness: one collection with modes `["light", "dark"]` and default
`"light"` yields exactly the single mode-create `"dark"`, `2 − 1` of them. -/
theorem transformToFigmaVariables_mode_creates_witness :
    ((transformToFigmaVariables modesTheme {} 0).1.requestBody.variableModes.map
        (·.name) =
      (modesTheme.collections.map
        (fun c => c.modes.filter (fun m => m ≠ c.defaultMode))).flatten) ∧
    (modesCollection.modes.filter (fun m => m ≠ modesCollection.defaultMode)).length =
      modesCollection.modes.length - 1 :=
  ⟨(transformToFigmaVariables_mode_creates modesTheme {} 0).1,
   (transformToFigmaVariables_mode_creates modesTheme {} 0).2 modesCollection
     (by decide) (by decide) (by decide)⟩

-- Helper lemmas tracking the report's Skipped list through the transformer.

/-- Warnings never touch the Skipped list. -/
theorem addWarning_skipped (r : Report) (c : WarningCode) (m : String) (p : Option String) :
    (r.addWarning c m p).skipped = r.skipped := rfl

/-- Unit stripping never touches the Skipped list. -/
theorem dimensionToNumber_skipped (d : DimensionValue) (r : Report) (pa : String) :
    ((dimensionToNumber d r pa).2).skipped = r.skipped := by
  unfold dimensionToNumber
  split <;> rfl

/-- Value conversion at path `pa` only ever appends Skipped entries whose path
is `pa`: it preserves any path-count for a different path. -/
theorem tokenValueToFigma_skipped_countP (t : Token) (r : Report) (pa s : String)
    (hne : pa ≠ s) :
    ((tokenValueToFigma t r pa).2.skipped.countP (fun e => e.path = s)) =
      r.skipped.countP (fun e => e.path = s) := by
  unfold tokenValueToFigma
  split
  · simp [Report.addSkipped, List.countP_append, List.countP_cons, hne]
  · split
    all_goals (repeat' split)
    all_goals simp [addWarning_skipped, dimensionToNumber_skipped]

/-- The per-variable mode-value loop only appends Skipped entries at
collection-qualified paths: it preserves the count for any path different
from all of them. -/
theorem processModeValues_skipped_countP (cn : String) (toks : List (String × Entries))
    (mids : List (String × String)) (vid : String) (path : List String) (s : String) :
    ∀ (modes : List String) (r : Report),
      (∀ m ∈ modes, cn ++ "." ++ m ++ "." ++ String.intercalate "." path ≠ s) →
      ((processModeValues cn toks mids vid path modes r).1.skipped.countP
          (fun e => e.path = s)) =
        r.skipped.countP (fun e => e.path = s) := by
  intro modes
  induction modes with
  | nil => intro r _; rfl
  | cons m rest ih =>
      intro r hm
      have hrest : ∀ m' ∈ rest, cn ++ "." ++ m' ++ "." ++ String.intercalate "." path ≠ s :=
        fun m' hm' => hm m' (List.mem_cons_of_mem m hm')
      have hthis : cn ++ "." ++ m ++ "." ++ String.intercalate "." path ≠ s :=
        hm m (List.mem_cons_self m rest)
      unfold processModeValues
      split
      · exact ih r hrest
      · split
        · exact ih r hrest
        · split
          · exact ih r hrest
          · dsimp only
            split
            · rw [ih _ hrest, tokenValueToFigma_skipped_countP _ _ _ _ hthis]
            · rw [ih _ hrest]
              have : ∀ r' : Report, (r'.addValue).skipped = r'.skipped := fun _ => rfl
              rw [this, tokenValueToFigma_skipped_countP _ _ _ _ hthis]

/-- Per-token Skipped accounting: processing a token leaves the count of
Skipped entries at path `s` unchanged, except for a composite-kind or
unknown-kind token whose own dotted path is `s`, which adds exactly one (the
collection-qualified reference-skip paths are assumed distinct from `s`). -/
theorem processToken_skipped_count (options : FigmaOutputAdapterOptions)
    (c : TokenCollection) (cid pfx : String) (mids : List (String × String))
    (st : TransformState) (pt : List String × Token) (s : String)
    (hmode : ∀ m ∈ c.modes, c.name ++ "." ++ m ++ "." ++ String.intercalate "." pt.1 ≠ s) :
    ((processToken options c cid pfx mids st pt).report.skipped.countP
        (fun e => e.path = s)) =
      st.report.skipped.countP (fun e => e.path = s) +
        (if (SKIP_TYPES.contains pt.2.type' = true ∨
              TOKEN_TYPE_TO_FIGMA pt.2.type' = Option.none)
            ∧ String.intercalate "." pt.1 = s then 1 else 0) := by
  obtain ⟨path, token⟩ := pt
  simp only [processToken]
  split
  · rename_i hskip
    have hmem : token.type' ∈ SKIP_TYPES := by simpa using hskip
    by_cases hp : String.intercalate "." path = s <;>
      simp [Report.addSkipped, List.countP_append, List.countP_cons, hp, hmem]
  · rename_i hskip
    have hmem : token.type' ∉ SKIP_TYPES := by simpa using hskip
    split
    · rename_i httf
      by_cases hp : String.intercalate "." path = s <;>
        simp [Report.addSkipped, List.countP_append, List.countP_cons, hp, hmem, httf]
    · rename_i ft httf
      split
      · simp [hmem, httf]
      · dsimp only
        rw [processModeValues_skipped_countP c.name c.tokens mids _ path s c.modes _ hmode]
        simp [Report.addVariable, hmem, httf]

/-- Per-token variable accounting: processing a token whose slash path could
only be `s` if it were a composite or unknown kind leaves the count of
variable-creates named `s` unchanged. -/
theorem processToken_variables_count_zero (options : FigmaOutputAdapterOptions)
    (c : TokenCollection) (cid pfx : String) (mids : List (String × String))
    (st : TransformState) (pt : List String × Token) (s : String)
    (h : String.intercalate "/" pt.1 = s →
         SKIP_TYPES.contains pt.2.type' = true ∨
           TOKEN_TYPE_TO_FIGMA pt.2.type' = Option.none) :
    ((processToken options c cid pfx mids st pt).body.variables'.countP
        (fun v => v.name = s)) = st.body.variables'.countP (fun v => v.name = s) := by
  obtain ⟨path, token⟩ := pt
  simp only [processToken]
  split
  · rfl
  · rename_i hskip
    split
    · rfl
    · rename_i ft httf
      split
      · rfl
      · have hne : String.intercalate "/" path ≠ s := by
          intro he
          rcases h he with hc | hn
          · exact hskip hc
          · rw [httf] at hn
            cases hn
        dsimp only
        rw [List.countP_append]
        simp [hne]

/-- The token fold accumulates one Skipped entry at path `s` per flattened
composite- or unknown-kind token with that dotted path. -/
theorem foldl_processToken_skipped_count (options : FigmaOutputAdapterOptions)
    (c : TokenCollection) (cid pfx : String) (mids : List (String × String)) (s : String) :
    ∀ (l : List (List String × Token)) (st : TransformState),
      (∀ pt ∈ l, ∀ m ∈ c.modes,
        c.name ++ "." ++ m ++ "." ++ String.intercalate "." pt.1 ≠ s) →
      ((l.foldl (processToken options c cid pfx mids) st).report.skipped.countP
          (fun e => e.path = s)) =
        st.report.skipped.countP (fun e => e.path = s) +
          l.countP (fun pt =>
            (SKIP_TYPES.contains pt.2.type' = true ∨
              TOKEN_TYPE_TO_FIGMA pt.2.type' = Option.none)
            ∧ String.intercalate "." pt.1 = s) := by
  intro l
  induction l with
  | nil => intro st _; simp
  | cons pt rest ih =>
      intro st hl
      rw [List.foldl_cons,
          ih _ (fun q hq m hm => hl q (List.mem_cons_of_mem pt hq) m hm),
          processToken_skipped_count options c cid pfx mids st pt s
            (hl pt (List.mem_cons_self pt rest)),
          List.countP_cons]
      simp only [decide_eq_true_eq]
      ring

/-- The token fold creates no variable named `s` when every flattened token
with slash path `s` is of a composite or unknown kind. -/
theorem foldl_processToken_variables_count (options : FigmaOutputAdapterOptions)
    (c : TokenCollection) (cid pfx : String) (mids : List (String × String)) (s : String) :
    ∀ (l : List (List String × Token)) (st : TransformState),
      (∀ pt ∈ l, String.intercalate "/" pt.1 = s →
        SKIP_TYPES.contains pt.2.type' = true ∨
          TOKEN_TYPE_TO_FIGMA pt.2.type' = Option.none) →
      ((l.foldl (processToken options c cid pfx mids) st).body.variables'.countP
          (fun v => v.name = s)) = st.body.variables'.countP (fun v => v.name = s) := by
  intro l
  induction l with
  | nil => intro st _; rfl
  | cons pt rest ih =>
      intro st hl
      rw [List.foldl_cons,
          ih _ (fun q hq => hl q (List.mem_cons_of_mem pt hq)),
          processToken_variables_count_zero options c cid pfx mids st pt s
            (hl pt (List.mem_cons_self pt rest))]

/-- Mode counting never touches the Skipped list. -/
theorem foldl_addMode_skipped (l : List VariableModeCreate) (r : Report) :
    (l.foldl (fun r' _ => r'.addMode) r).skipped = r.skipped := by
  induction l generalizing r with
  | nil => rfl
  | cons m rest ih => rw [List.foldl_cons, ih]; rfl

/-- Per-collection Skipped accounting: processing a collection adds one
Skipped entry at path `s` per flattened composite- or unknown-kind token of
its default-mode tree whose dotted path is `s`. -/
theorem processCollection_skipped_count (options : FigmaOutputAdapterOptions)
    (pfx : String) (st : TransformState) (c : TokenCollection) (s : String)
    (hmode : ∀ pt ∈ defaultFlattened c, ∀ m ∈ c.modes,
        c.name ++ "." ++ m ++ "." ++ String.intercalate "." pt.1 ≠ s) :
    ((processCollection options pfx st c).report.skipped.countP
        (fun e => e.path = s)) =
      st.report.skipped.countP (fun e => e.path = s) +
        (defaultFlattened c).countP (fun pt =>
          (SKIP_TYPES.contains pt.2.type' = true ∨
            TOKEN_TYPE_TO_FIGMA pt.2.type' = Option.none)
          ∧ String.intercalate "." pt.1 = s) := by
  unfold processCollection
  split
  · rename_i hnone
    have hdf : defaultFlattened c = [] := by simp [defaultFlattened, hnone]
    simp [hdf, foldl_addMode_skipped, Report.addCollection]
  · rename_i dts hsome
    have hdf : defaultFlattened c = flattenTokens dts := by simp [defaultFlattened, hsome]
    rw [foldl_processToken_skipped_count _ _ _ _ _ _ _ _
        (by rw [← hdf]; exact hmode)]
    rw [hdf]
    have : ∀ r : Report, r.addCollection.skipped = r.skipped := fun _ => rfl
    simp [foldl_addMode_skipped, this]

/-- Per-collection variable accounting: processing a collection creates no
variable named `s` when every flattened token with slash path `s` is of a
composite or unknown kind. -/
theorem processCollection_variables_count (options : FigmaOutputAdapterOptions)
    (pfx : String) (st : TransformState) (c : TokenCollection) (s : String)
    (h : ∀ pt ∈ defaultFlattened c, String.intercalate "/" pt.1 = s →
        SKIP_TYPES.contains pt.2.type' = true ∨
          TOKEN_TYPE_TO_FIGMA pt.2.type' = Option.none) :
    ((processCollection options pfx st c).body.variables'.countP
        (fun v => v.name = s)) = st.body.variables'.countP (fun v => v.name = s) := by
  unfold processCollection
  split
  · rfl
  · rename_i dts hsome
    have hdf : defaultFlattened c = flattenTokens dts := by simp [defaultFlattened, hsome]
    rw [foldl_processToken_variables_count _ _ _ _ _ _ _ _
        (by rw [← hdf]; exact h)]

/-- Whole-theme Skipped accounting over the collection fold. -/
theorem foldl_processCollection_skipped_count (options : FigmaOutputAdapterOptions)
    (pfx : String) (s : String) :
    ∀ (cs : List TokenCollection) (st : TransformState),
      (∀ c' ∈ cs, ∀ pt ∈ defaultFlattened c', ∀ m ∈ c'.modes,
        c'.name ++ "." ++ m ++ "." ++ String.intercalate "." pt.1 ≠ s) →
      ((cs.foldl (processCollection options pfx) st).report.skipped.countP
          (fun e => e.path = s)) =
        st.report.skipped.countP (fun e => e.path = s) +
          (cs.map (fun c' => (defaultFlattened c').countP (fun pt =>
            (SKIP_TYPES.contains pt.2.type' = true ∨
              TOKEN_TYPE_TO_FIGMA pt.2.type' = Option.none)
            ∧ String.intercalate "." pt.1 = s))).sum := by
  intro cs
  induction cs with
  | nil => intro st _; simp
  | cons c rest ih =>
      intro st hcs
      rw [List.foldl_cons,
          ih _ (fun c' hc' => hcs c' (List.mem_cons_of_mem c hc')),
          processCollection_skipped_count options pfx st c s
            (hcs c (List.mem_cons_self c rest))]
      simp
      ring

/-- Whole-theme variable accounting over the collection fold. -/
theorem foldl_processCollection_variables_count (options : FigmaOutputAdapterOptions)
    (pfx : String) (s : String) :
    ∀ (cs : List TokenCollection) (st : TransformState),
      (∀ c' ∈ cs, ∀ pt ∈ defaultFlattened c', String.intercalate "/" pt.1 = s →
        SKIP_TYPES.contains pt.2.type' = true ∨
          TOKEN_TYPE_TO_FIGMA pt.2.type' = Option.none) →
      ((cs.foldl (processCollection options pfx) st).body.variables'.countP
          (fun v => v.name = s)) = st.body.variables'.countP (fun v => v.name = s) := by
  intro cs
  induction cs with
  | nil => intro st _; rfl
  | cons c rest ih =>
      intro st hcs
      rw [List.foldl_cons,
          ih _ (fun c' hc' => hcs c' (List.mem_cons_of_mem c hc')),
          processCollection_variables_count options pfx st c s
            (hcs c (List.mem_cons_self c rest))]

/-- C5: for every composite-kind token (typography, shadow, border, gradient,
cubicBezier, transition, animation, keyframes) in a collection's default-mode
tree, `transformToFigmaVariables` emits no variable-create op for that token's
path and appends exactly one Skipped entry referencing that path to the
report.  The uniqueness hypotheses rule out distinct tree positions whose
joined path strings coincide (JS object keys are unique, but a key may itself
contain a separator character). -/
theorem transformToFigmaVariables_skip_types (theme : ThemeFile)
    (options : FigmaOutputAdapterOptions) (counter : Nat)
    (c : TokenCollection) (p : List String) (t : Token)
    (_hc : c ∈ theme.collections)
    (_hmem : (p, t) ∈ defaultFlattened c)
    (_hskip : SKIP_TYPES.contains t.type' = true)
    (hmode : ∀ c' ∈ theme.collections, ∀ pt ∈ defaultFlattened c', ∀ m ∈ c'.modes,
        c'.name ++ "." ++ m ++ "." ++ String.intercalate "." pt.1 ≠
          String.intercalate "." p)
    (huniq : (theme.collections.map (fun c' => (defaultFlattened c').countP (fun pt =>
        (SKIP_TYPES.contains pt.2.type' = true ∨
          TOKEN_TYPE_TO_FIGMA pt.2.type' = Option.none)
        ∧ String.intercalate "." pt.1 = String.intercalate "." p))).sum = 1)
    (hvar : ∀ c' ∈ theme.collections, ∀ pt ∈ defaultFlattened c',
        String.intercalate "/" pt.1 = String.intercalate "/" p →
        SKIP_TYPES.contains pt.2.type' = true ∨
          TOKEN_TYPE_TO_FIGMA pt.2.type' = Option.none) :
    ((transformToFigmaVariables theme options counter).1.report.skipped.countP
        (fun e => e.path = String.intercalate "." p) = 1) ∧
    ((transformToFigmaVariables theme options counter).1.requestBody.variables'.countP
        (fun v => v.name = String.intercalate "/" p) = 0) := by
  constructor
  · rw [transformToFigmaVariables]
    dsimp only
    rw [foldl_processCollection_skipped_count _ _ _ _ _ hmode]
    have h0 : (Report.init.setSourceCheck (theme.meta.bind fun x => x.figmaFileKey)
        options.targetFileKey options.allowSourceOverwrite).skipped = [] := rfl
    rw [h0]
    simpa using huniq
  · rw [transformToFigmaVariables]
    dsimp only
    rw [foldl_processCollection_variables_count _ _ _ _ _ hvar]
    rfl

/-- C5 witness: a single shadow token at `shadow.card` yields exactly one
Skipped entry at path `shadow.card` and no variable named `shadow/card`. -/
theorem transformToFigmaVariables_skip_types_witness :
    ((transformToFigmaVariables skipWitnessTheme {} 0).1.report.skipped.countP
        (fun e => e.path = String.intercalate "." ["shadow", "card"]) = 1) ∧
    ((transformToFigmaVariables skipWitnessTheme {} 0).1.requestBody.variables'.countP
        (fun v => v.name = String.intercalate "/" ["shadow", "card"]) = 0) :=
  transformToFigmaVariables_skip_types skipWitnessTheme {} 0 skipWitnessCollection
    ["shadow", "card"] shadowToken (by decide) (by decide) (by decide)
    (by decide) (by decide) (by decide)

-- Helper lemmas for referential consistency (claim C10).

/-- `Map.set` semantics of `mapSet` under first-match lookup. -/
theorem lookup_mapSet (l : List (String × String)) (k0 v0 k : String) :
    lookupAssoc (mapSet l k0 v0) k =
      if k = k0 then Option.some v0 else lookupAssoc l k := by
  induction l with
  | nil =>
      simp only [mapSet, lookupAssoc]
      by_cases h : k = k0
      · subst h
        simp
      · rw [if_neg (fun he : k0 = k => h he.symm), if_neg h]
  | cons kv rest ih =>
      obtain ⟨k', v'⟩ := kv
      by_cases h1 : k' = k0
      · subst h1
        simp only [mapSet, if_pos rfl, lookupAssoc]
        by_cases h2 : k' = k
        · rw [if_pos h2, if_pos h2.symm]
        · rw [if_neg h2, if_neg (fun he : k = k' => h2 he.symm), if_neg h2]
      · simp only [mapSet, if_neg h1, lookupAssoc]
        by_cases h2 : k' = k
        · subst h2
          rw [if_pos rfl, if_neg h1, if_pos rfl]
        · rw [if_neg h2, ih]
          by_cases h3 : k = k0
          · rw [if_pos h3, if_pos h3]
          · rw [if_neg h3, if_neg h3, if_neg h2]

/-- Every id in the mode-id map built by `buildModes` is either an id already
bound in the initial map or the id of one of the mode-creates built. -/
theorem buildModes_map_range (pfx cid d : String) :
    ∀ (modes : List String) (ctr : Nat) (m0 : List (String × String)) (k v : String),
      lookupAssoc (buildModes pfx cid d modes ctr m0).2.1 k = Option.some v →
      lookupAssoc m0 k = Option.some v ∨
        ∃ mc ∈ (buildModes pfx cid d modes ctr m0).2.2, v = mc.id := by
  intro modes
  induction modes with
  | nil => intro ctr m0 k v h; exact Or.inl h
  | cons m rest ih =>
      intro ctr m0 k v h
      by_cases hm : m = d
      · rw [buildModes, if_pos hm] at h ⊢
        exact ih ctr m0 k v h
      · rw [buildModes, if_neg hm] at h ⊢
        rcases ih _ _ k v h with hl | ⟨mc, hmc, hv⟩
        · rw [lookup_mapSet] at hl
          by_cases hk : k = m
          · rw [if_pos hk] at hl
            refine Or.inr ⟨_, List.mem_cons_self _ _, ?_⟩
            simpa using hl.symm
          · rw [if_neg hk] at hl
            exact Or.inl hl
        · exact Or.inr ⟨mc, List.mem_cons_of_mem _ hmc, hv⟩

/-- Every mode-value op pushed by the per-variable loop references the given
variable id and a mode id bound in the mode-id map. -/
theorem processModeValues_new_refs (cn : String) (toks : List (String × Entries))
    (mids : List (String × String)) (vid : String) (path : List String) :
    ∀ (modes : List String) (r : Report),
      ∀ mv ∈ (processModeValues cn toks mids vid path modes r).2,
        mv.variableId = vid ∧ ∃ k, lookupAssoc mids k = Option.some mv.modeId := by
  intro modes
  induction modes with
  | nil => intro r mv hmv; cases hmv
  | cons m rest ih =>
      intro r mv hmv
      unfold processModeValues at hmv
      split at hmv
      · exact ih r mv hmv
      · split at hmv
        · exact ih r mv hmv
        · split at hmv
          · exact ih r mv hmv
          · rename_i modeId hlm
            dsimp only at hmv
            split at hmv
            · exact ih _ mv hmv
            · rcases List.mem_cons.mp hmv with rfl | hmv'
              · exact ⟨rfl, m, hlm⟩
              · exact ih _ mv hmv'

/-- Appending one collection-create and mode-creates that reference it
preserves referential consistency. -/
theorem consistent_extend (body : PostVariablesRequestBody)
    (col : VariableCollectionCreate) (creates : List VariableModeCreate)
    (hcons : BodyRefsConsistent body)
    (hc : ∀ mc ∈ creates, mc.variableCollectionId = col.id) :
    BodyRefsConsistent
      { body with
        variableCollections := body.variableCollections ++ [col]
        variableModes := body.variableModes ++ creates } := by
  obtain ⟨hModes, hVars, hVals⟩ := hcons
  refine ⟨?_, ?_, ?_⟩
  · intro mc hmc
    rcases List.mem_append.mp hmc with h | h
    · rcases hModes mc h with ⟨c0, hc0, he⟩
      exact ⟨c0, List.mem_append.mpr (Or.inl hc0), he⟩
    · exact ⟨col, List.mem_append.mpr (Or.inr (List.mem_singleton.mpr rfl)), hc mc h⟩
  · intro v hv
    rcases hVars v hv with ⟨c0, hc0, he⟩
    exact ⟨c0, List.mem_append.mpr (Or.inl hc0), he⟩
  · intro mv hmv
    obtain ⟨⟨v, hv, hve⟩, hm⟩ := hVals mv hmv
    refine ⟨⟨v, hv, hve⟩, ?_⟩
    rcases hm with ⟨mc, hmc, he⟩ | ⟨c0, hc0, he⟩
    · exact Or.inl ⟨mc, List.mem_append.mpr (Or.inl hmc), he⟩
    · exact Or.inr ⟨c0, List.mem_append.mpr (Or.inl hc0), he⟩

/-- Processing one token preserves referential consistency, provided the
collection id and every id in the mode-id map already reference ops of the
batch. -/
theorem processToken_refs (options : FigmaOutputAdapterOptions) (c : TokenCollection)
    (cid pfx : String) (mids : List (String × String)) (st : TransformState)
    (pt : List String × Token)
    (hcid : ∃ col ∈ st.body.variableCollections, cid = col.id)
    (hmids : ∀ k v, lookupAssoc mids k = Option.some v →
      (∃ mc ∈ st.body.variableModes, v = mc.id) ∨
      (∃ col ∈ st.body.variableCollections, v = col.initialModeId))
    (hcons : BodyRefsConsistent st.body) :
    BodyRefsConsistent (processToken options c cid pfx mids st pt).body := by
  obtain ⟨path, token⟩ := pt
  simp only [processToken]
  split
  · exact hcons
  · split
    · exact hcons
    · split
      · exact hcons
      · dsimp only
        obtain ⟨hModes, hVars, hVals⟩ := hcons
        refine ⟨?_, ?_, ?_⟩
        · intro mc hmc
          exact hModes mc hmc
        · intro v hv
          rcases List.mem_append.mp hv with hv | hv
          · exact hVars v hv
          · rcases hcid with ⟨col, hcol, hceq⟩
            rw [List.mem_singleton.mp hv]
            exact ⟨col, hcol, hceq⟩
        · intro mv hmv
          rcases List.mem_append.mp hmv with hmv | hmv
          · obtain ⟨⟨v, hv, hve⟩, hm⟩ := hVals mv hmv
            exact ⟨⟨v, List.mem_append.mpr (Or.inl hv), hve⟩, hm⟩
          · obtain ⟨hvid, k, hk⟩ := processModeValues_new_refs c.name c.tokens mids _
              path c.modes _ mv hmv
            constructor
            · exact ⟨_, List.mem_append.mpr (Or.inr (List.mem_singleton.mpr rfl)), hvid⟩
            · rcases hmids k _ hk with ⟨mc, hmc, he⟩ | ⟨col, hcol, he⟩
              · exact Or.inl ⟨mc, hmc, he⟩
              · exact Or.inr ⟨col, hcol, he⟩

/-- The token fold preserves referential consistency. -/
theorem foldl_processToken_refs (options : FigmaOutputAdapterOptions)
    (c : TokenCollection) (cid pfx : String) (mids : List (String × String)) :
    ∀ (l : List (List String × Token)) (st : TransformState),
      (∃ col ∈ st.body.variableCollections, cid = col.id) →
      (∀ k v, lookupAssoc mids k = Option.some v →
        (∃ mc ∈ st.body.variableModes, v = mc.id) ∨
        (∃ col ∈ st.body.variableCollections, v = col.initialModeId)) →
      BodyRefsConsistent st.body →
      BodyRefsConsistent ((l.foldl (processToken options c cid pfx mids) st).body) := by
  intro l
  induction l with
  | nil => intro st _ _ h; exact h
  | cons pt rest ih =>
      intro st hcid hmids hcons
      rw [List.foldl_cons]
      apply ih
      · rw [processToken_variableCollections]
        exact hcid
      · intro k v hkv
        rw [processToken_variableModes, processToken_variableCollections]
        exact hmids k v hkv
      · exact processToken_refs options c cid pfx mids st pt hcid hmids hcons

/-- Processing one collection preserves referential consistency. -/
theorem processCollection_refs (options : FigmaOutputAdapterOptions) (pfx : String)
    (st : TransformState) (c : TokenCollection)
    (hcons : BodyRefsConsistent st.body) :
    BodyRefsConsistent (processCollection options pfx st c).body := by
  unfold processCollection
  split
  · exact consistent_extend st.body _ _ hcons
      (fun mc hmc => buildModes_creates_collectionId _ _ _ _ _ _ mc hmc)
  · apply foldl_processToken_refs
    · exact ⟨_, List.mem_append.mpr (Or.inr (List.mem_singleton.mpr rfl)), rfl⟩
    · intro k v hkv
      rcases buildModes_map_range _ _ _ c.modes _ _ k v hkv with hl | ⟨mc, hmc, he⟩
      · right
        refine ⟨_, List.mem_append.mpr (Or.inr (List.mem_singleton.mpr rfl)), ?_⟩
        simp only [lookupAssoc] at hl
        by_cases hk : c.defaultMode = k
        · rw [if_pos hk] at hl
          exact (Option.some.inj hl).symm
        · rw [if_neg hk] at hl
          cases hl
      · left
        exact ⟨mc, List.mem_append.mpr (Or.inr hmc), he⟩
    · exact consistent_extend st.body _ _ hcons
        (fun mc hmc => buildModes_creates_collectionId _ _ _ _ _ _ mc hmc)

/-- The collection fold preserves referential consistency. -/
theorem foldl_processCollection_refs (options : FigmaOutputAdapterOptions) (pfx : String) :
    ∀ (cs : List TokenCollection) (st : TransformState),
      BodyRefsConsistent st.body →
      BodyRefsConsistent ((cs.foldl (processCollection options pfx) st).body) := by
  intro cs
  induction cs with
  | nil => intro st h; exact h
  | cons c rest ih =>
      intro st hcons
      rw [List.foldl_cons]
      exact ih _ (processCollection_refs options pfx st c hcons)

/-- C10: the request body built by `transformToFigmaVariables` is
referentially consistent: every variable-create's and mode-create's
`variableCollectionId` is the id of a collection-create of the same batch,
and every mode-value's `variableId` is the id of a variable-create and its
`modeId` the id of a mode-create or a collection-create's `initialModeId` of
the same batch. -/
theorem transformToFigmaVariables_refs_consistent (theme : ThemeFile)
    (options : FigmaOutputAdapterOptions) (counter : Nat) :
    BodyRefsConsistent
      (transformToFigmaVariables theme options counter).1.requestBody := by
  rw [transformToFigmaVariables]
  dsimp only
  apply foldl_processCollection_refs
  exact ⟨fun mc hmc => absurd hmc (List.not_mem_nil mc),
         fun v hv => absurd hv (List.not_mem_nil v),
         fun mv hmv => absurd hmv (List.not_mem_nil mv)⟩

end FigmaTo
